import Mathlib

/-!
# Verification of the ovn-lab-builder reconciliation core

Shallow embedding of `src/ovn_lab_builder/{schema,topology,ovn_builder}.py`.

Conventions of the embedding:

* Python `int` values appearing as ids, counts and addresses are modelled as
  `Nat` (all claims concern non-negative values; the source applies no range
  checks, and neither does the model).
* IPv4 addresses are `Nat` values below `2^32`; an `ipaddress.IPv4Network`
  is the pair of its network address and prefix length.
* `IPv4Net.hosts` models `ipaddress.IPv4Network.hosts()` as documented for
  Python >= 3.8: for a /31 both addresses are produced, for a /32 the single
  address is produced, otherwise all addresses between network and broadcast.
* Fallible Python code (pydantic validation raising `ValidationError`,
  attribute errors raised during topology derivation) is modelled with
  `Except String`.  Error strings are transliterations of the source
  messages (quote characters dropped).
* The pydantic field named `mac_prefix` in the source is called `macPfx`
  here; the attribute `vpc_mac_prefix` read (but never assigned) by
  `LogicalSwitch.dhcp_server_mac` is referred to in the corresponding error
  string.
* The ovsdbapp client is modelled by a record of object tables (`NBState`)
  and a trace of issued operations (`Op`); an existence query is a list
  membership test, a transaction is the list of operations it adds.
-/

/-- Lowercase hexadecimal rendering of `n` padded to width 2, the value of
the Python format specifier `{n:02x}` for non-negative `n`. -/
def toHex2 (n : Nat) : String :=
  let ds := Nat.toDigits 16 n
  if ds.length < 2 then String.mk ('0' :: ds) else String.mk ds

/-- Dotted-quad rendering of an IPv4 address held as a `Nat`, the value of
Python `str(IPv4Address(n))`. -/
def ipStr (n : Nat) : String :=
  Nat.repr (n / 16777216 % 256) ++ "." ++ Nat.repr (n / 65536 % 256) ++ "." ++
    Nat.repr (n / 256 % 256) ++ "." ++ Nat.repr (n % 256)

/-- An `ipaddress.IPv4Network` value: network address plus prefix length. -/
structure IPv4Net where
  netAddr : Nat
  prefixlen : Nat
deriving DecidableEq, Repr

/-- Number of addresses in the network (`network.num_addresses`). -/
def IPv4Net.size (n : IPv4Net) : Nat := 2 ^ (32 - n.prefixlen)

/-- All addresses of the network, in order (Python `list(network)`). -/
def IPv4Net.addresses (n : IPv4Net) : List Nat := List.range' n.netAddr n.size

/-- Python `list(network.hosts())` (semantics of Python >= 3.8): both
addresses for a /31, the single address for a /32, and everything strictly
between network and broadcast address otherwise. -/
def IPv4Net.hosts (n : IPv4Net) : List Nat :=
  if n.prefixlen = 32 then [n.netAddr]
  else if n.prefixlen = 31 then [n.netAddr, n.netAddr + 1]
  else List.range' (n.netAddr + 1) (n.size - 2)

/-- Python `str(network)`, e.g. `192.168.1.0/24`. -/
def IPv4Net.toCidr (n : IPv4Net) : String :=
  ipStr n.netAddr ++ "/" ++ Nat.repr n.prefixlen

/-- Structural model of Python `str.split(sep)` for a one-character
separator (also the behaviour of `String.splitOn` for such separators);
written by structural recursion so that proofs can evaluate it. -/
def splitOnCharAux (sep : Char) : List Char → List Char → List (List Char)
  | [], acc => [acc.reverse]
  | c :: rest, acc =>
    if c = sep then acc.reverse :: splitOnCharAux sep rest []
    else splitOnCharAux sep rest (c :: acc)

/-- Split a string at every occurrence of `sep`. -/
def splitOnChar (sep : Char) (s : String) : List String :=
  (splitOnCharAux sep s.toList []).map (fun l => String.mk l)

/-- Python `str.lower()` over the characters of a string. -/
def strLower (s : String) : String := String.mk (s.toList.map Char.toLower)

/-- Digits-only decimal parse of a nonempty string (helper for the CIDR
parser); `none` on empty input or any non-digit character. -/
def parseDecimal (cs : List Char) : Option Nat :=
  match cs with
  | [] => none
  | _ =>
    cs.foldl (fun acc c =>
      match acc with
      | none => none
      | some v => if c.isDigit then some (v * 10 + (c.toNat - 48)) else none)
      (some 0)

/-- One dotted-quad octet: digits only, value below 256, and no leading zero
(`ipaddress` rejects ambiguous leading-zero octets). -/
def parseOctet (s : String) : Option Nat :=
  match parseDecimal s.toList with
  | none => none
  | some v =>
    if v ≤ 255 ∧ (s.length = 1 ∨ s.toList.head? ≠ some '0') then some v else none

/-- Dotted-quad address parse (helper for the CIDR parser). -/
def parseAddr (s : String) : Option Nat :=
  match (splitOnChar '.' s).mapM parseOctet with
  | some [a, b, c, d] => some (a * 16777216 + b * 65536 + c * 256 + d)
  | _ => none

/-- Model of `ipaddress.IPv4Network(s)` with the default `strict=True`, for
inputs of the form `a.b.c.d` or `a.b.c.d/len`: the prefix length must be at
most 32 and the host bits of the address must be zero.  (The netmask and
hostmask spellings of the prefix accepted by `ipaddress` are not used by
this repository and are not modelled.) -/
def parseIPv4Network (s : String) : Option IPv4Net :=
  match splitOnChar '/' s with
  | [a] =>
    match parseAddr a with
    | some addr => some ⟨addr, 32⟩
    | none => none
  | [a, p] =>
    match parseAddr a, parseDecimal p.toList with
    | some addr, some pl =>
      if pl ≤ 32 ∧ addr % 2 ^ (32 - pl) = 0 then some ⟨addr, pl⟩ else none
    | _, _ => none
  | _ => none

/-- `schema.AddressingMode`. -/
inductive AddressingMode where
  | dynamic
  | static
  | unknown
deriving DecidableEq, Repr

/-- `schema.SwitchType`. -/
inductive SwitchType where
  | normal
  | mgmt
  | p2p
deriving DecidableEq, Repr

/-- `schema.SwitchType.value` (the string payload of the Python enum). -/
def SwitchType.value : SwitchType → String
  | .normal => "normal"
  | .mgmt => "mgmt"
  | .p2p => "p2p"

/-- `schema.Port`: a declared logical switch port. -/
structure PortCfg where
  name : String
  addressing : AddressingMode
  ip : Option String := none
deriving DecidableEq, Repr

/-- `schema.Switch`: a declared logical switch. -/
structure SwitchCfg where
  name : String
  id : Nat
  type : SwitchType
  subnet : String
  dhcp_enable : Bool := false
  routed : Bool := false
  port_count : Option Nat := none
  ports : Option (List PortCfg) := none
deriving DecidableEq, Repr

/-- `schema.VPC`.  The source field `mac_prefix` is called `macPfx`. -/
structure VPCCfg where
  name : String
  macPfx : String
  id : Nat
  port_count : Option Nat := none
deriving DecidableEq, Repr

/-- `schema.LabConfig`. -/
structure LabConfig where
  vpc : VPCCfg
  switches : List SwitchCfg
deriving DecidableEq, Repr

/-- `Port.validate_ip_if_static`: a static port must carry a non-empty IP
(Python truthiness: `None` and the empty string both fail `not v`). -/
def validatePortCfg (p : PortCfg) : Except String Unit :=
  if p.addressing = AddressingMode.static ∧ (p.ip = none ∨ p.ip = some "") then
    Except.error "IP address must be provided when addressing mode is static"
  else Except.ok ()

/-- `Switch.validate_subnet`: the subnet string must parse as an IPv4
network. -/
def validateSubnet (v : String) : Except String Unit :=
  match parseIPv4Network v with
  | some _ => Except.ok ()
  | none => Except.error ("Invalid subnet: " ++ v)

/-- `Switch.validate_ports_or_count`, over the values visible to the root
validator.  `vpcPortCount` is the value of `values.get(..)` for the key
`vpc_port_count`: it is not a declared field of `Switch`, so when a
`Switch` is validated (which pydantic v1 does while parsing the `switches`
field of `LabConfig`, before any `LabConfig` root validator runs) this
lookup always yields `none`. -/
def validatePortsOrCount (ports : Option (List PortCfg)) (portCount : Option Nat)
    (vpcPortCount : Option Nat) : Except String Unit :=
  if ports ≠ none ∧ portCount ≠ none then
    Except.error "Cannot specify both ports and port_count"
  else if ports = none ∧ portCount = none ∧ vpcPortCount = none then
    Except.error "Must specify either ports or port_count"
  else Except.ok ()

/-- Validation of one `Switch` model: field validators in declaration order
(subnet, then the `ports` items), then the root validator, which sees no
`vpc_port_count` key (see `validatePortsOrCount`). -/
def validateSwitchCfg (c : SwitchCfg) : Except String Unit := do
  validateSubnet c.subnet
  (c.ports.getD []).forM validatePortCfg
  validatePortsOrCount c.ports c.port_count none

/-- `VPC.validate_mac_prefix` on the lowercased input: hex digits and colons
only, exactly three octets, each of two characters. -/
def validateMacPfx (v : String) : Except String Unit :=
  let lower := strLower v
  if ¬ lower.toList.all (fun c => c ∈ "0123456789abcdef:".toList) then
    Except.error ("Invalid MAC prefix: " ++ v)
  else if (splitOnChar ':' lower).length ≠ 3 then
    Except.error ("MAC prefix must have 3 octets: " ++ v)
  else if ¬ (splitOnChar ':' lower).all (fun part => part.length = 2) then
    Except.error ("Each octet must be 2 hex digits: " ++ v)
  else Except.ok ()

/-- `LabConfig.validate_switch_ids`: switch ids are pairwise distinct. -/
def validateSwitchIds (switches : List SwitchCfg) : Except String Unit :=
  if (switches.map (fun s => s.id)).Nodup then Except.ok ()
  else Except.error "Switch IDs must be unique"

/-- `LabConfig.inject_vpc_port_count`: the root validator loops over the
(already validated) switches and, whenever the VPC carries a default port
count, executes `setattr(switch, "vpc_port_count", ...)`.  `vpc_port_count`
is not a declared field of `Switch` and pydantic v1 models reject setting
undeclared attributes, so the first such `setattr` raises. -/
def injectVpcPortCount (vpc : VPCCfg) (switches : List SwitchCfg) : Except String Unit :=
  if vpc.port_count ≠ none ∧ switches ≠ [] then
    Except.error "Switch object has no field vpc_port_count"
  else Except.ok ()

/-- Full `LabConfig` validation, in pydantic v1 order: parse/validate the
`vpc` field, parse/validate each element of `switches` (running each
`Switch` model's own validators), run the `switches` field validator, then
the root validator.  Pydantic collects several errors where possible; this
model short-circuits at the first, which agrees on success versus failure. -/
def validateLabConfig (c : LabConfig) : Except String Unit := do
  validateMacPfx c.vpc.macPfx
  c.switches.forM validateSwitchCfg
  validateSwitchIds c.switches
  injectVpcPortCount c.vpc c.switches

/-- `topology.LogicalSwitchPort`: the derived port object (all fields set
in `__init__`). -/
structure LogicalSwitchPort where
  vpc_name : String
  switch_name : String
  port_name : String
  vpc_id : Nat
  switch_id : Nat
  port_index : Nat
  macPfx : String
  addressing : AddressingMode
  ip : Option String := none
  subnet : Option IPv4Net := none
deriving DecidableEq, Repr

/-- `LogicalSwitchPort.full_name`. -/
def LogicalSwitchPort.full_name (p : LogicalSwitchPort) : String :=
  p.vpc_name ++ "-" ++ p.switch_name ++ "-" ++ p.port_name

/-- `LogicalSwitchPort.mac`: `{mac_prefix}:{vpc_id:02x}:{switch_id:02x}:{port_index:02x}`. -/
def LogicalSwitchPort.mac (p : LogicalSwitchPort) : String :=
  p.macPfx ++ ":" ++ toHex2 p.vpc_id ++ ":" ++ toHex2 p.switch_id ++ ":" ++ toHex2 p.port_index

/-- `LogicalSwitchPort.port_security`. -/
def LogicalSwitchPort.port_security (p : LogicalSwitchPort) : List String :=
  match p.addressing, p.ip with
  | AddressingMode.static, some i => if i = "" then [p.mac] else [p.mac ++ " " ++ i]
  | _, _ => [p.mac]

/-- The DHCP options dictionary assembled by `Topology._setup_dhcp_options`. -/
structure DhcpOpts where
  server_id : String
  server_mac : String
  router : String
  dns_server : String
  lease_time : String
deriving DecidableEq, Repr

/-- `topology.LogicalSwitch`.  Exactly the attributes assigned in
`LogicalSwitch.__init__` (plus `ports` / `dhcp_options`, which `__init__`
initialises and `Topology` fills in): note that no `vpc_mac_prefix` or
`vpc_id` attribute exists on this object. -/
structure LogicalSwitch where
  vpc_name : String
  name : String
  id : Nat
  type : SwitchType
  subnet_str : String
  subnet : IPv4Net
  dhcp_enable : Bool := false
  routed : Bool := false
  ports : List LogicalSwitchPort := []
  dhcp_options : Option DhcpOpts := none
deriving DecidableEq, Repr

/-- `LogicalSwitch.full_name`. -/
def LogicalSwitch.full_name (s : LogicalSwitch) : String :=
  s.vpc_name ++ "-" ++ s.name

/-- Error raised by `LogicalSwitch.dhcp_server_mac`: the property reads
`self.vpc_mac_prefix` (and `self.vpc_id`), attributes that are assigned
nowhere in the class or in `Topology`, so every access raises
`AttributeError`. -/
def attrErrMsg : String :=
  "AttributeError: LogicalSwitch object has no attribute vpc_mac_prefix"

/-- `LogicalSwitch.dhcp_server_mac` (always raises; see `attrErrMsg`). -/
def LogicalSwitch.dhcp_server_mac (_ : LogicalSwitch) : Except String String :=
  Except.error attrErrMsg

/-- `LogicalSwitch.router_port_ip`: first element of `hosts()` with the
prefix length appended; the `not hosts` branch (with its /31 special case
returning the bare network address) is retained from the source even
though `hosts()` of Python >= 3.8 is never empty. -/
def LogicalSwitch.router_port_ip (s : LogicalSwitch) : Option String :=
  if ¬ s.routed then none
  else
    match s.subnet.hosts with
    | [] => if s.subnet.prefixlen = 31 then some (ipStr s.subnet.netAddr) else none
    | h :: _ => some (ipStr h ++ "/" ++ Nat.repr s.subnet.prefixlen)

/-- `LogicalSwitch.router_port_mac`: `None` unless the switch is routed and
DHCP-enabled, in which case the (always failing) `dhcp_server_mac` read is
performed. -/
def LogicalSwitch.router_port_mac (s : LogicalSwitch) : Except String (Option String) :=
  if ¬ s.routed ∨ ¬ s.dhcp_enable then Except.ok none
  else (s.dhcp_server_mac).map (fun m => some m)

/-- `LogicalSwitch.usable_ips`: all addresses for a /31; otherwise
`hosts()`, minus its first four elements when DHCP is enabled and more than
four hosts exist. -/
def LogicalSwitch.usable_ips (s : LogicalSwitch) : List Nat :=
  if s.subnet.prefixlen = 31 then s.subnet.addresses
  else
    let hosts := s.subnet.hosts
    if s.dhcp_enable ∧ hosts.length > 4 then hosts.drop 4 else hosts

/-- `topology.LogicalRouter`: name-keyed mapping from switch name to the
(gateway IP, gateway MAC) pair. -/
structure LogicalRouter where
  vpc_name : String
  switch_ports : List (String × String × String) := []
deriving DecidableEq, Repr

/-- `LogicalRouter.full_name`. -/
def LogicalRouter.full_name (r : LogicalRouter) : String :=
  r.vpc_name ++ "-lr"

/-- Insertion-ordered dictionary update (Python dict assignment `d[k] = v`):
replaces the value in place when the key exists, appends otherwise. -/
def dictUpd {α : Type} : List (String × α) → String → α → List (String × α)
  | [], k, v => [(k, v)]
  | (k0, v0) :: rest, k, v =>
    if k0 = k then (k, v) :: rest else (k0, v0) :: dictUpd rest k v

/-- Python dict lookup. -/
def dictLookup {α : Type} (k : String) : List (String × α) → Option α
  | [] => none
  | (k0, v0) :: rest => if k0 = k then some v0 else dictLookup k rest

/-- `LogicalRouter.add_switch`: register a routed switch's gateway pair
when both the gateway IP and the gateway MAC resolve to truthy values.
Reading `router_port_mac` can raise (see `dhcp_server_mac`). -/
def LogicalRouter.add_switch (r : LogicalRouter) (s : LogicalSwitch) :
    Except String LogicalRouter :=
  if ¬ s.routed then Except.ok r
  else do
    let ip := s.router_port_ip
    let mac ← s.router_port_mac
    match ip, mac with
    | some i, some m =>
      if i ≠ "" ∧ m ≠ "" then
        Except.ok { r with switch_ports := dictUpd r.switch_ports s.name (i, m) }
      else Except.ok r
    | _, _ => Except.ok r

/-- Python `or` on optional counts (`switch_config.port_count or
self.config.vpc.port_count`): a present but zero count is falsy and falls
through to the second operand. -/
def pyOrCount (a b : Option Nat) : Option Nat :=
  match a with
  | some n => if n = 0 then b else some n
  | none => b

/-- Explicit-ports branch of `Topology._add_ports_to_switch`: indices are
assigned `1..N` in list order (`enumerate` + 1), addressing and optional
static IP copied verbatim. -/
def portsFromExplicit (vpcName macPfx : String) (vpcId : Nat) (sw : LogicalSwitch) :
    Nat → List PortCfg → List LogicalSwitchPort
  | _, [] => []
  | idx, pc :: rest =>
    { vpc_name := vpcName, switch_name := sw.name, port_name := pc.name,
      vpc_id := vpcId, switch_id := sw.id, port_index := idx + 1,
      macPfx := macPfx, addressing := pc.addressing, ip := pc.ip,
      subnet := some sw.subnet } :: portsFromExplicit vpcName macPfx vpcId sw (idx + 1) rest

/-- Autogenerated-ports branch of `Topology._add_ports_to_switch`: the
effective count is clamped to the usable pool size, ports are named
`lsp{i}` with indices `1..count`, dynamic when DHCP is enabled and unknown
otherwise. -/
def portsAutogen (vpcName macPfx : String) (vpcId : Nat) (sw : LogicalSwitch)
    (count : Nat) : List LogicalSwitchPort :=
  (List.range' 1 (min count sw.usable_ips.length)).map (fun i =>
    { vpc_name := vpcName, switch_name := sw.name, port_name := "lsp" ++ Nat.repr i,
      vpc_id := vpcId, switch_id := sw.id, port_index := i,
      macPfx := macPfx,
      addressing := if sw.dhcp_enable then AddressingMode.dynamic else AddressingMode.unknown,
      ip := none, subnet := some sw.subnet })

/-- `Topology._add_ports_to_switch`: Python truthiness on
`switch_config.ports` sends both `None` and the empty list to the
autogeneration branch; an unresolvable count yields no ports (warning). -/
def addPortsToSwitch (vpcName macPfx : String) (vpcId : Nat) (vpcPortCount : Option Nat)
    (sw : LogicalSwitch) (cfg : SwitchCfg) : List LogicalSwitchPort :=
  match cfg.ports with
  | some (pc :: rest) => portsFromExplicit vpcName macPfx vpcId sw 0 (pc :: rest)
  | _ =>
    match pyOrCount cfg.port_count vpcPortCount with
    | none => []
    | some n => portsAutogen vpcName macPfx vpcId sw n

/-- `Topology._setup_dhcp_options`: with a non-empty host list the method
reads `switch.dhcp_server_mac`, which raises (see `attrErrMsg`); with an
empty host list it only warns and leaves the options unset. -/
def setupDhcpOptions (sw : LogicalSwitch) : Except String (Option DhcpOpts) :=
  if sw.subnet.hosts = [] then Except.ok none
  else do
    let mac ← sw.dhcp_server_mac
    match sw.subnet.hosts with
    | [] => Except.ok none
    | h :: _ =>
      Except.ok (some { server_id := ipStr h, server_mac := mac,
                        router := ipStr h, dns_server := "8.8.8.8",
                        lease_time := "3600" })

/-- One iteration of the switch loop of `Topology._build_topology`:
instantiate the `LogicalSwitch` shell (parsing the subnet as
`LogicalSwitch.__init__` does), populate its ports, then set up DHCP
options when enabled. -/
def deriveSwitch (vpc : VPCCfg) (cfg : SwitchCfg) : Except String LogicalSwitch := do
  match parseIPv4Network cfg.subnet with
  | none => Except.error ("Invalid subnet: " ++ cfg.subnet)
  | some net =>
    let shell : LogicalSwitch :=
      { vpc_name := vpc.name, name := cfg.name, id := cfg.id, type := cfg.type,
        subnet_str := cfg.subnet, subnet := net,
        dhcp_enable := cfg.dhcp_enable, routed := cfg.routed }
    let withPorts :=
      { shell with ports := (addPortsToSwitch vpc.name (strLower vpc.macPfx)
          vpc.id vpc.port_count shell cfg) }
    if cfg.dhcp_enable then do
      let opts ← setupDhcpOptions withPorts
      Except.ok { withPorts with dhcp_options := opts }
    else Except.ok withPorts

/-- The switch loop of `Topology._build_topology`: derived switches are
stored in the name-keyed dictionary `self.switches`, so a later descriptor
with the same name replaces an earlier one. -/
def deriveSwitches (vpc : VPCCfg) : List SwitchCfg → List (String × LogicalSwitch) →
    Except String (List (String × LogicalSwitch))
  | [], acc => Except.ok acc
  | cfg :: rest, acc => do
    let sw ← deriveSwitch vpc cfg
    deriveSwitches vpc rest (dictUpd acc cfg.name sw)

/-- The router phase of `Topology._build_topology`: a router exists exactly
when some stored switch is routed, and every routed switch is offered to
`LogicalRouter.add_switch` in storage order. -/
def deriveRouter (vpcName : String) (switches : List LogicalSwitch) :
    Except String (Option LogicalRouter) :=
  if switches.any (fun s => s.routed) then do
    let r ← switches.foldlM
      (fun r sw => if sw.routed then r.add_switch sw else Except.ok r)
      { vpc_name := vpcName, switch_ports := [] }
    Except.ok (some r)
  else Except.ok none

/-- `topology.Topology` (the derived object graph). -/
structure Topology where
  vpc_name : String
  macPfx : String
  vpc_id : Nat
  switches : List (String × LogicalSwitch)
  router : Option LogicalRouter
deriving DecidableEq, Repr

/-- `Topology.__init__` / `_build_topology`: derive the full topology from
a configuration (the constructor performs no validation of its own). -/
def deriveLab (c : LabConfig) : Except String Topology := do
  let sws ← deriveSwitches c.vpc c.switches []
  let router ← deriveRouter c.vpc.name (sws.map (fun kv => kv.2))
  Except.ok { vpc_name := c.vpc.name, macPfx := strLower c.vpc.macPfx,
              vpc_id := c.vpc.id, switches := sws, router := router }

/-- The ordered switch objects a build or destroy run iterates over
(`topology.switches.values()`). -/
def Topology.switchObjs (t : Topology) : List LogicalSwitch :=
  t.switches.map (fun kv => kv.2)

/-- One typed operation added to an ovsdbapp transaction by
`ovn_builder.OvnBuilder`. -/
inductive Op where
  | lrAdd (name : String)
  | lsAdd (name : String)
  | dhcpOptionsAdd (cidr : String)
  | lsSetDhcpv4Options (ls : String) (cidr : String)
  | lsSetOtherConfig (ls : String) (excludeIps : List String)
  | lspAdd (ls : String) (name : String)
  | lspSetAddresses (lsp : String) (addrs : List String)
  | lspSetPortSecurity (lsp : String) (rules : List String)
  | lspSetType (lsp : String) (ty : String)
  | lspSetOptions (lsp : String) (routerPort : String)
  | lrpAdd (lr : String) (name : String) (mac : String) (networks : List String)
  | lrDel (name : String)
  | lsDel (name : String)
  | lspDel (name : String)
  | lrpDel (name : String)
  | dhcpOptionsDel (cidr : String)
deriving DecidableEq, Repr

/-- Whether an operation deletes an object. -/
def Op.isDel : Op → Bool
  | .lrDel _ | .lsDel _ | .lspDel _ | .lrpDel _ | .dhcpOptionsDel _ => true
  | _ => false

/-- The northbound database contents visible to the builder's existence
checks: names of routers, switches, switch ports and router ports, plus the
CIDRs of the DHCP-options records (in creation order; duplicates are
possible because DHCP options have no name key). -/
structure NBState where
  lrs : List String := []
  lss : List String := []
  lsps : List String := []
  lrps : List String := []
  dhcpOpts : List String := []
deriving DecidableEq, Repr

/-- The empty northbound database. -/
def emptyNB : NBState := {}

/-- Effect of one committed operation on the northbound database.  The
`set`-style operations mutate columns of existing objects and do not change
any existence check, so they leave this view unchanged; deletions remove
the first matching entry (ovsdbapp deletes by UUID; the builder always
resolves the first match). -/
def NBState.applyOp (s : NBState) : Op → NBState
  | .lrAdd n => { s with lrs := s.lrs ++ [n] }
  | .lsAdd n => { s with lss := s.lss ++ [n] }
  | .lspAdd _ n => { s with lsps := s.lsps ++ [n] }
  | .lrpAdd _ n _ _ => { s with lrps := s.lrps ++ [n] }
  | .dhcpOptionsAdd c => { s with dhcpOpts := s.dhcpOpts ++ [c] }
  | .lrDel n => { s with lrs := s.lrs.erase n }
  | .lsDel n => { s with lss := s.lss.erase n }
  | .lspDel n => { s with lsps := s.lsps.erase n }
  | .lrpDel n => { s with lrps := s.lrps.erase n }
  | .dhcpOptionsDel c => { s with dhcpOpts := s.dhcpOpts.erase c }
  | _ => s

/-- Apply a transaction's operations in order. -/
def NBState.applyOps (s : NBState) (ops : List Op) : NBState :=
  ops.foldl NBState.applyOp s

/-- `OvnBuilder._create_logical_router`: skip when the name exists,
otherwise one transaction creating the router. -/
def createLrOps (r : LogicalRouter) (s : NBState) : List Op :=
  if r.full_name ∈ s.lrs then [] else [Op.lrAdd r.full_name]

/-- `OvnBuilder._create_logical_switch`: skip when the name exists,
otherwise one transaction creating the switch. -/
def createLsOps (sw : LogicalSwitch) (s : NBState) : List Op :=
  if sw.full_name ∈ s.lss then [] else [Op.lsAdd sw.full_name]

/-- `OvnBuilder._create_dhcp_options`: no existence check is performed; the
options record is created, bound to the switch, and — when the subnet is
narrower than /31 and has at least four hosts — the first four host
addresses are marked excluded. -/
def createDhcpOps (sw : LogicalSwitch) : List Op :=
  match sw.dhcp_options with
  | none => []
  | some _ =>
    [Op.dhcpOptionsAdd sw.subnet.toCidr,
     Op.lsSetDhcpv4Options sw.full_name sw.subnet.toCidr] ++
    (if sw.subnet.prefixlen < 31 ∧ sw.subnet.hosts.length ≥ 4 then
       [Op.lsSetOtherConfig sw.full_name ((sw.subnet.hosts.take 4).map ipStr)]
     else [])

/-- Addresses column written by `_create_logical_switch_port`: the three
render rules for dynamic / static-with-IP / everything else. -/
def lspAddressesValue (p : LogicalSwitchPort) : List String :=
  match p.addressing, p.ip with
  | AddressingMode.dynamic, _ => [p.mac ++ " dynamic"]
  | AddressingMode.static, some i => if i = "" then ["unknown"] else [p.mac ++ " " ++ i]
  | _, _ => ["unknown"]

/-- `OvnBuilder._create_logical_switch_port`: skip when the name exists,
otherwise one transaction adding the port, setting addresses and setting
port security. -/
def createLspOps (sw : LogicalSwitch) (p : LogicalSwitchPort) (s : NBState) : List Op :=
  if p.full_name ∈ s.lsps then []
  else
    [Op.lspAdd sw.full_name p.full_name,
     Op.lspSetAddresses p.full_name (lspAddressesValue p),
     Op.lspSetPortSecurity p.full_name p.port_security]

/-- Body of `OvnBuilder._connect_switch_to_router` after the two gateway
attribute reads, over the values read: skip with a warning when either
gateway value is falsy; skip when BOTH interface names already exist;
otherwise create whichever of the router-side and switch-side interfaces is
missing, in one transaction. -/
def connectOps (lrFull swFull swName : String) (routerIp routerMac : Option String)
    (s : NBState) : List Op :=
  let rpn := lrFull ++ "-" ++ swName
  let spn := swFull ++ "-" ++ lrFull
  match routerIp, routerMac with
  | some ip, some mac =>
    if ip = "" ∨ mac = "" then []
    else if rpn ∈ s.lrps ∧ spn ∈ s.lsps then []
    else
      (if rpn ∈ s.lrps then [] else [Op.lrpAdd lrFull rpn mac [ip]]) ++
      (if spn ∈ s.lsps then []
       else [Op.lspAdd swFull spn, Op.lspSetType spn "router",
             Op.lspSetOptions spn rpn, Op.lspSetAddresses spn ["router"]])
  | _, _ => []

/-- Port loop of `OvnBuilder.build` for one switch, threading the database
state through the per-port transactions. -/
def buildPortsRun (sw : LogicalSwitch) : List LogicalSwitchPort → NBState →
    NBState × List Op
  | [], s => (s, [])
  | p :: rest, s =>
    let ops := createLspOps sw p s
    let next := buildPortsRun sw rest (s.applyOps ops)
    (next.1, ops ++ next.2)

/-- One iteration of the switch loop of `OvnBuilder.build`: create the
switch, create DHCP options when `dhcp_enable` is set and options were
derived, create the ports, then connect to the router when the switch is
routed and a router exists.  The connection step reads
`switch.router_port_mac`, which raises for a routed DHCP-enabled switch
(see `LogicalSwitch.dhcp_server_mac`). -/
def buildSwitchRun (router : Option LogicalRouter) (sw : LogicalSwitch) (s : NBState) :
    Except String (NBState × List Op) := do
  let ops1 := createLsOps sw s
  let s1 := s.applyOps ops1
  let ops2 := if sw.dhcp_enable ∧ sw.dhcp_options.isSome then createDhcpOps sw else []
  let s2 := s1.applyOps ops2
  let pr := buildPortsRun sw sw.ports s2
  match router with
  | some r =>
    if sw.routed then do
      let mac ← sw.router_port_mac
      let ops4 := connectOps r.full_name sw.full_name sw.name sw.router_port_ip mac pr.1
      Except.ok (pr.1.applyOps ops4, ops1 ++ ops2 ++ pr.2 ++ ops4)
    else Except.ok (pr.1, ops1 ++ ops2 ++ pr.2)
  | none => Except.ok (pr.1, ops1 ++ ops2 ++ pr.2)

/-- The switch loop of `OvnBuilder.build`. -/
def buildSwitchesRun (router : Option LogicalRouter) : List LogicalSwitch → NBState →
    Except String (NBState × List Op)
  | [], s => Except.ok (s, [])
  | sw :: rest, s => do
    let p ← buildSwitchRun router sw s
    let q ← buildSwitchesRun router rest p.1
    Except.ok (q.1, p.2 ++ q.2)

/-- Router step of `OvnBuilder.build` (`if topology.router:` then create). -/
def routerCreateOps (router : Option LogicalRouter) (s : NBState) : List Op :=
  match router with
  | some r => createLrOps r s
  | none => []

/-- `OvnBuilder.build`: create the router first when the topology has one,
then walk the switches. -/
def buildRun (t : Topology) (s : NBState) : Except String (NBState × List Op) := do
  let ops0 := routerCreateOps t.router s
  let s0 := s.applyOps ops0
  let p ← buildSwitchesRun t.router t.switchObjs s0
  Except.ok (p.1, ops0 ++ p.2)

/-- `OvnBuilder._disconnect_switch_from_router`: delete whichever of the
two attachment interfaces exists, in one transaction (no error when both
are absent). -/
def disconnectOps (lrFull swFull swName : String) (s : NBState) : List Op :=
  let rpn := lrFull ++ "-" ++ swName
  let spn := swFull ++ "-" ++ lrFull
  (if rpn ∈ s.lrps then [Op.lrpDel rpn] else []) ++
  (if spn ∈ s.lsps then [Op.lspDel spn] else [])

/-- `OvnBuilder._delete_logical_router`. -/
def deleteLrOps (r : LogicalRouter) (s : NBState) : List Op :=
  if r.full_name ∈ s.lrs then [Op.lrDel r.full_name] else []

/-- `OvnBuilder._delete_logical_switch`. -/
def deleteLsOps (sw : LogicalSwitch) (s : NBState) : List Op :=
  if sw.full_name ∈ s.lss then [Op.lsDel sw.full_name] else []

/-- `OvnBuilder._delete_logical_switch_port`. -/
def deleteLspOps (p : LogicalSwitchPort) (s : NBState) : List Op :=
  if p.full_name ∈ s.lsps then [Op.lspDel p.full_name] else []

/-- `OvnBuilder._delete_dhcp_options`: scan all DHCP-options records for
the first one whose CIDR matches the switch's subnet; delete it when
found. -/
def deleteDhcpOps (sw : LogicalSwitch) (s : NBState) : List Op :=
  match s.dhcpOpts.find? (fun c => c = sw.subnet.toCidr) with
  | some c => [Op.dhcpOptionsDel c]
  | none => []

/-- Router step of `OvnBuilder.destroy` (`if topology.router:` then delete). -/
def routerDeleteOps (router : Option LogicalRouter) (s : NBState) : List Op :=
  match router with
  | some r => deleteLrOps r s
  | none => []

/-- First loop of `OvnBuilder.destroy`: detach every routed switch from the
router (when a router exists). -/
def destroyDetachRun (router : Option LogicalRouter) : List LogicalSwitch → NBState →
    NBState × List Op
  | [], s => (s, [])
  | sw :: rest, s =>
    let ops := match router with
      | some r => if sw.routed then disconnectOps r.full_name sw.full_name sw.name s else []
      | none => []
    let next := destroyDetachRun router rest (s.applyOps ops)
    (next.1, ops ++ next.2)

/-- Port-deletion loop of `OvnBuilder.destroy` for one switch. -/
def destroyPortsRun : List LogicalSwitchPort → NBState → NBState × List Op
  | [], s => (s, [])
  | p :: rest, s =>
    let ops := deleteLspOps p s
    let next := destroyPortsRun rest (s.applyOps ops)
    (next.1, ops ++ next.2)

/-- One iteration of the second loop of `OvnBuilder.destroy`: delete the
switch's ports, then its DHCP options (when DHCP-enabled), then the switch
itself. -/
def destroySwitchRun (sw : LogicalSwitch) (s : NBState) :
    NBState × (List Op × List Op × List Op) :=
  let pr := destroyPortsRun sw.ports s
  let ops2 := if sw.dhcp_enable then deleteDhcpOps sw pr.1 else []
  let s2 := pr.1.applyOps ops2
  let ops3 := deleteLsOps sw s2
  (s2.applyOps ops3, (pr.2, ops2, ops3))

/-- Second loop of `OvnBuilder.destroy`, keeping each switch's three
op groups (ports, DHCP options, switch). -/
def destroySwitchesRun : List LogicalSwitch → NBState →
    NBState × List (List Op × List Op × List Op)
  | [], s => (s, [])
  | sw :: rest, s =>
    let p := destroySwitchRun sw s
    let next := destroySwitchesRun rest p.1
    (next.1, p.2 :: next.2)

/-- `OvnBuilder.destroy`: detach all routed switches, delete the router,
then per switch delete ports, DHCP options and the switch. -/
def destroyRun (t : Topology) (s : NBState) : NBState × List Op :=
  let d := destroyDetachRun t.router t.switchObjs s
  let rops := routerDeleteOps t.router d.1
  let s2 := d.1.applyOps rops
  let sr := destroySwitchesRun t.switchObjs s2
  (sr.1, d.2 ++ rops ++ (sr.2.map (fun g => g.1 ++ g.2.1 ++ g.2.2)).flatten)

/-- The flat sequence of delete operations emitted by one destroy run. -/
def destroyOps (t : Topology) (s : NBState) : List Op := (destroyRun t s).2

/-- Concrete configuration for C1 (the shape of `test_topology_build` in the
repository's own test suite): the VPC supplies a default port count and the
second switch gives neither an explicit port list nor a port count. -/
def c1Cfg : LabConfig :=
  { vpc := { name := "vlab", macPfx := "e1:cc:ff", id := 1, port_count := some 2 },
    switches :=
      [{ name := "ls1", id := 1, type := SwitchType.normal, subnet := "192.168.1.0/24",
         dhcp_enable := true, routed := true, port_count := some 2 },
       { name := "ls2", id := 2, type := SwitchType.p2p, subnet := "192.168.2.0/31" }] }

/-- The `LogicalSwitch` shell the deriver would build for the `ls2`
descriptor of `c1Cfg` (subnet `192.168.2.0/31`, no DHCP). -/
def c1Ls2Shell : LogicalSwitch :=
  { vpc_name := "vlab", name := "ls2", id := 2, type := SwitchType.p2p,
    subnet_str := "192.168.2.0/31", subnet := ⟨3232236032, 31⟩ }

/-- The `ls2` descriptor of `c1Cfg`. -/
def c1Ls2Cfg : SwitchCfg :=
  { name := "ls2", id := 2, type := SwitchType.p2p, subnet := "192.168.2.0/31" }

/-- A DHCP-enabled switch on a /30 subnet (`10.0.0.0/30`): its host list
has only two entries, so the four-address DHCP reservation of
`usable_ips` does not engage. -/
def c2Sw30 : LogicalSwitch :=
  { vpc_name := "vlab", name := "s", id := 1, type := SwitchType.normal,
    subnet_str := "10.0.0.0/30", subnet := ⟨167772160, 30⟩, dhcp_enable := true }

/-- A DHCP-enabled switch on `192.168.1.0/24` (the spec's own example). -/
def c2Sw24 : LogicalSwitch :=
  { vpc_name := "vlab", name := "ls1", id := 1, type := SwitchType.normal,
    subnet_str := "192.168.1.0/24", subnet := ⟨3232235776, 24⟩, dhcp_enable := true }

/-- A routed point-to-point switch on `192.168.2.0/31`. -/
def c4Sw31 : LogicalSwitch :=
  { vpc_name := "vlab", name := "p", id := 2, type := SwitchType.p2p,
    subnet_str := "192.168.2.0/31", subnet := ⟨3232236032, 31⟩, routed := true }

/-- Northbound state in which the router-side attachment interface
`vlab-lr-ls1` exists but the switch-side interface does not. -/
def c3HalfState : NBState := { lrps := ["vlab-lr-ls1"] }

/-- Configuration for C5: one non-routed, non-DHCP switch. -/
def c5Cfg : LabConfig :=
  { vpc := { name := "vlab", macPfx := "e1:cc:ff", id := 1 },
    switches :=
      [{ name := "ls1", id := 1, type := SwitchType.p2p, subnet := "10.0.0.0/30",
         port_count := some 1 }] }

/-- A fallback topology value (used only to give `Option.getD` a default). -/
def emptyTopo : Topology :=
  { vpc_name := "", macPfx := "", vpc_id := 0, switches := [], router := none }

/-- The topology derived from `c5Cfg`. -/
def c5Topo : Topology := (deriveLab c5Cfg).toOption.getD emptyTopo

/-- Database state and operation trace of a first build of `c5Topo` against
an empty northbound database. -/
def c5Pair : NBState × List Op := ((buildRun c5Topo emptyNB).toOption).getD (emptyNB, [])

/-- A port with VPC id 1, switch id 1, MAC prefix `e1:cc:ff` and index 3
(the MAC-formula example of the specification). -/
def c6Port : LogicalSwitchPort :=
  { vpc_name := "vlab", switch_name := "ls1", port_name := "lsp3",
    vpc_id := 1, switch_id := 1, port_index := 3, macPfx := "e1:cc:ff",
    addressing := AddressingMode.dynamic }

/-- Concrete configuration for C6's witness: two explicit ports. -/
def c6Cfg : SwitchCfg :=
  { name := "ls1", id := 1, type := SwitchType.normal, subnet := "192.168.1.0/24",
    ports := some [{ name := "a", addressing := AddressingMode.dynamic },
                   { name := "b", addressing := AddressingMode.static, ip := some "192.168.1.10" }] }

/-- Switch shell matching `c6Cfg`. -/
def c6Shell : LogicalSwitch :=
  { vpc_name := "vlab", name := "ls1", id := 1, type := SwitchType.normal,
    subnet_str := "192.168.1.0/24", subnet := ⟨3232235776, 24⟩ }

/-- Configuration for C7: a single routed, DHCP-enabled switch (the shape of
the specification's end-to-end scenario, with the port count given on the
switch so that validation passes). -/
def c7Cfg : LabConfig :=
  { vpc := { name := "vlab", macPfx := "e1:cc:ff", id := 1 },
    switches :=
      [{ name := "ls1", id := 1, type := SwitchType.normal, subnet := "192.168.1.0/24",
         dhcp_enable := true, routed := true, port_count := some 1 }] }

/-- A routed switch without DHCP (C7's no-gateway-MAC case). -/
def c7SwNoDhcp : LogicalSwitch :=
  { vpc_name := "vlab", name := "r", id := 3, type := SwitchType.normal,
    subnet_str := "10.0.3.0/24", subnet := ⟨167772928, 24⟩, routed := true }

/-- Configuration for C8: VPC id 999 and switch id 300, both outside 0-255. -/
def c8Cfg : LabConfig :=
  { vpc := { name := "vlab", macPfx := "e1:cc:ff", id := 999 },
    switches :=
      [{ name := "ls1", id := 300, type := SwitchType.normal, subnet := "192.168.1.0/24",
         port_count := some 1 }] }

/-- `c8Cfg` with its VPC id replaced. -/
def setVpcId (c : LabConfig) (n : Nat) : LabConfig :=
  { c with vpc := { c.vpc with id := n } }

/-- Configuration for C10: two switch descriptors named `a` with distinct
ids; the first is routed, the second is not. -/
def c10Cfg : LabConfig :=
  { vpc := { name := "vlab", macPfx := "e1:cc:ff", id := 1 },
    switches :=
      [{ name := "a", id := 1, type := SwitchType.normal, subnet := "10.0.1.0/24",
         routed := true, port_count := some 1 },
       { name := "a", id := 2, type := SwitchType.normal, subnet := "10.0.2.0/24",
         port_count := some 1 }] }

/-- The topology derived from `c10Cfg`. -/
def c10Topo : Topology := (deriveLab c10Cfg).toOption.getD emptyTopo

/-- No switch of the list is DHCP-enabled (the invariant every
successfully derived topology satisfies, since derivation raises on any
DHCP-enabled switch). -/
def noDhcp (sws : List LogicalSwitch) : Prop :=
  ∀ sw ∈ sws, sw.dhcp_enable = false


/-- Componentwise membership inclusion between two northbound states
(every object visible in `s` is visible in `s2`). -/
def NBSub (s s2 : NBState) : Prop :=
  (∀ x ∈ s.lrs, x ∈ s2.lrs) ∧ (∀ x ∈ s.lss, x ∈ s2.lss) ∧
  (∀ x ∈ s.lsps, x ∈ s2.lsps) ∧ (∀ x ∈ s.lrps, x ∈ s2.lrps)

theorem hosts_of_le_30 (n : IPv4Net) (h : n.prefixlen ≤ 30) :
    n.hosts = List.range' (n.netAddr + 1) (n.size - 2) := by
  unfold IPv4Net.hosts
  rw [if_neg (by omega), if_neg (by omega)]

theorem size_ge_four_of_le_30 (n : IPv4Net) (h : n.prefixlen ≤ 30) : 4 ≤ n.size := by
  unfold IPv4Net.size
  calc 4 = 2 ^ 2 := by norm_num
  _ ≤ 2 ^ (32 - n.prefixlen) := Nat.pow_le_pow_right (by norm_num) (by omega)

theorem hosts_ne_nil (n : IPv4Net) (h : n.prefixlen ≤ 32) : n.hosts ≠ [] := by
  by_cases h32 : n.prefixlen = 32
  · unfold IPv4Net.hosts; rw [if_pos h32]; simp
  · by_cases h31 : n.prefixlen = 31
    · unfold IPv4Net.hosts; rw [if_neg h32, if_pos h31]; simp
    · rw [hosts_of_le_30 n (by omega)]
      have hs := size_ge_four_of_le_30 n (by omega)
      have : (List.range' (n.netAddr + 1) (n.size - 2)).length = n.size - 2 :=
        List.length_range' _ _ _
      intro hnil
      rw [hnil] at this
      simp at this
      omega

theorem hosts_nodup (n : IPv4Net) : n.hosts.Nodup := by
  unfold IPv4Net.hosts
  split
  · simp
  · split
    · simp
    · exact List.nodup_range' _ _ 1 Nat.one_pos

/-- C2, amended statement.  Usable pool for autogenerated ports: for a /31
both addresses; otherwise the host list, from which the first four entries
are removed only when DHCP is enabled AND the host list has more than four
entries (so that on subnets with at most four hosts the DHCP reservation
does not engage); the number of autogenerated ports is the requested count
clamped to the pool size, and in particular a /31 with requested count 5
yields exactly 2 ports. -/
theorem c2_usable_pool_and_clamping (sw : LogicalSwitch) (vn mp : String) (vid : Nat)
    (vpcPC : Option Nat) (cfg : SwitchCfg) (n : Nat) :
    (sw.subnet.prefixlen = 31 → sw.usable_ips = sw.subnet.addresses) ∧
    (sw.subnet.prefixlen ≠ 31 → (sw.dhcp_enable = false ∨ sw.subnet.hosts.length ≤ 4) →
       sw.usable_ips = sw.subnet.hosts) ∧
    (sw.subnet.prefixlen ≠ 31 → sw.dhcp_enable = true → 4 < sw.subnet.hosts.length →
       sw.usable_ips = sw.subnet.hosts.drop 4 ∧
       ∀ x ∈ sw.subnet.hosts.take 4, x ∉ sw.usable_ips) ∧
    ((cfg.ports = none ∨ cfg.ports = some []) → pyOrCount cfg.port_count vpcPC = some n →
       (addPortsToSwitch vn mp vid vpcPC sw cfg).length = min n sw.usable_ips.length) ∧
    (sw.subnet.prefixlen = 31 → cfg.ports = none → pyOrCount cfg.port_count vpcPC = some 5 →
       (addPortsToSwitch vn mp vid vpcPC sw cfg).length = 2) := by
  have hclamp : ∀ m : Nat, (cfg.ports = none ∨ cfg.ports = some []) →
      pyOrCount cfg.port_count vpcPC = some m →
      (addPortsToSwitch vn mp vid vpcPC sw cfg).length = min m sw.usable_ips.length := by
    intro m hports hcount
    have : addPortsToSwitch vn mp vid vpcPC sw cfg = portsAutogen vn mp vid sw m := by
      rcases hports with h | h <;> rw [addPortsToSwitch, h] <;> rw [hcount]
    rw [this, portsAutogen, List.length_map, List.length_range']
  refine ⟨?_, ?_, ?_, hclamp n, ?_⟩
  · intro h31
    rw [LogicalSwitch.usable_ips, if_pos h31]
  · intro h31 hcase
    rw [LogicalSwitch.usable_ips, if_neg h31]
    rcases hcase with h | h
    · rw [if_neg]
      simp [h]
    · rw [if_neg]
      exact fun hc => absurd hc.2 (by omega)
  · intro h31 hdhcp hlen
    have hu : sw.usable_ips = sw.subnet.hosts.drop 4 := by
      rw [LogicalSwitch.usable_ips, if_neg h31, if_pos ⟨hdhcp, hlen⟩]
    refine ⟨hu, ?_⟩
    intro x hx
    rw [hu]
    exact fun hd => List.disjoint_take_drop (hosts_nodup sw.subnet) (le_refl 4) hx hd
  · intro h31 hports hcount
    have h := hclamp 5 (Or.inl hports) hcount
    rw [h]
    have hlen : sw.usable_ips.length = 2 := by
      rw [LogicalSwitch.usable_ips, if_pos h31, IPv4Net.addresses, List.length_range',
        IPv4Net.size, h31]
      decide
    rw [hlen]
    decide

set_option maxRecDepth 8000 in
/-- Witness for `c2_usable_pool_and_clamping`: on the DHCP-enabled /24
switch `192.168.1.0/24` the pool drops the first four hosts (so the first
host `192.168.1.1` is excluded), and a /31 switch asked for 5 ports gets 2. -/
theorem c2_usable_pool_and_clamping_witness :
    c2Sw24.usable_ips = c2Sw24.subnet.hosts.drop 4 ∧
    (3232235777 ∉ c2Sw24.usable_ips) ∧
    (addPortsToSwitch "vlab" "e1:cc:ff" 1 (some 5) c1Ls2Shell c1Ls2Cfg).length = 2 := by
  have h := c2_usable_pool_and_clamping c2Sw24 "vlab" "e1:cc:ff" 1 (some 5) c1Ls2Cfg 5
  have h31 := c2_usable_pool_and_clamping c1Ls2Shell "vlab" "e1:cc:ff" 1 (some 5) c1Ls2Cfg 5
  have hdrop := (h.2.2.1 (by decide) (by decide) (by decide))
  exact ⟨hdrop.1, hdrop.2 3232235777 (by decide),
    h31.2.2.2.2 (by decide) (by decide) (by decide)⟩

/-- C2, counterexample to the claim as stated: on the DHCP-enabled /30
switch `10.0.0.0/30` the host list has only two entries, the reservation
does not engage, and the usable pool contains the very first host address
`10.0.0.1` — contradicting "the pool never contains any of the first 4 host
addresses, regardless of subnet size". -/
theorem c2_dhcp_small_subnet_counterexample :
    c2Sw30.dhcp_enable = true ∧
    c2Sw30.subnet.hosts = [167772161, 167772162] ∧
    167772161 ∈ c2Sw30.usable_ips := by
  refine ⟨rfl, ?_, ?_⟩ <;> decide

/-- C4, amended statement.  For a routed switch the gateway is the FIRST
element of the Python >= 3.8 `hosts()` list, always rendered WITH the
prefix length: `network+1` for prefixes up to /30, the network address
itself for /31 (so `a.b.c.d/31`, not the bare network address) and for
/32.  Because `hosts()` is never empty, the source's empty-hosts branch
(bare network address for /31, skip otherwise) is unreachable, and no
routed switch is ever skipped for lack of usable hosts. -/
theorem c4_router_gateway_ip (sw : LogicalSwitch) (hp : sw.subnet.prefixlen ≤ 32) :
    (sw.routed = false → sw.router_port_ip = none) ∧
    (sw.routed = true → ∃ h rest, sw.subnet.hosts = h :: rest ∧
       sw.router_port_ip = some (ipStr h ++ "/" ++ Nat.repr sw.subnet.prefixlen)) ∧
    (sw.routed = true → sw.subnet.prefixlen ≤ 30 →
       sw.router_port_ip = some (ipStr (sw.subnet.netAddr + 1) ++ "/" ++ Nat.repr sw.subnet.prefixlen)) ∧
    (sw.routed = true → sw.subnet.prefixlen = 31 →
       sw.router_port_ip = some (ipStr sw.subnet.netAddr ++ "/" ++ Nat.repr 31)) ∧
    (sw.routed = true → sw.subnet.prefixlen = 32 →
       sw.router_port_ip = some (ipStr sw.subnet.netAddr ++ "/" ++ Nat.repr 32)) := by
  have hgen : sw.routed = true → ∃ h rest, sw.subnet.hosts = h :: rest ∧
      sw.router_port_ip = some (ipStr h ++ "/" ++ Nat.repr sw.subnet.prefixlen) := by
    intro hr
    obtain ⟨h, rest, hh⟩ := List.exists_cons_of_ne_nil (hosts_ne_nil sw.subnet hp)
    refine ⟨h, rest, hh, ?_⟩
    rw [LogicalSwitch.router_port_ip, if_neg (by simp [hr]), hh]
  refine ⟨?_, hgen, ?_, ?_, ?_⟩
  · intro hr
    rw [LogicalSwitch.router_port_ip, if_pos (by simp [hr])]
  · intro hr h30
    obtain ⟨h, rest, hh, hip⟩ := hgen hr
    rw [hosts_of_le_30 sw.subnet h30] at hh
    have hs := size_ge_four_of_le_30 sw.subnet h30
    have : sw.subnet.size - 2 = (sw.subnet.size - 3) + 1 := by omega
    rw [this, List.range'] at hh
    rw [hip, (List.cons.injEq _ _ _ _).mp hh |>.1]
  · intro hr h31
    obtain ⟨h, rest, hh, hip⟩ := hgen hr
    rw [IPv4Net.hosts, if_neg (by omega), if_pos h31] at hh
    rw [hip, (List.cons.injEq _ _ _ _).mp hh |>.1, h31]
  · intro hr h32
    obtain ⟨h, rest, hh, hip⟩ := hgen hr
    rw [IPv4Net.hosts, if_pos h32] at hh
    rw [hip, (List.cons.injEq _ _ _ _).mp hh |>.1, h32]

/-- Witness for `c4_router_gateway_ip`: the routed /31 switch
`192.168.2.0/31` derives its gateway as the network address with the
prefix length appended. -/
theorem c4_router_gateway_ip_witness :
    c4Sw31.router_port_ip = some (ipStr c4Sw31.subnet.netAddr ++ "/" ++ Nat.repr 31) :=
  (c4_router_gateway_ip c4Sw31 (by decide)).2.2.2.1 rfl rfl

/-- C4, counterexample to the claim as stated: for the routed /31 switch
`192.168.2.0/31` the derived gateway is `192.168.2.0/31` — the network
address WITH the prefix length — not the bare network address
`192.168.2.0` that the claim's /31 exception describes (the source branch
that would return the bare address is dead, because `hosts()` of a /31 is
non-empty on Python >= 3.8). -/
theorem c4_slash31_counterexample :
    c4Sw31.routed = true ∧ c4Sw31.subnet.prefixlen = 31 ∧
    c4Sw31.router_port_ip = some "192.168.2.0/31" ∧
    c4Sw31.router_port_ip ≠ some (ipStr c4Sw31.subnet.netAddr) := by
  refine ⟨rfl, rfl, ?_, ?_⟩ <;> decide

theorem portsFromExplicit_map_index (vn mp : String) (vid : Nat) (sw : LogicalSwitch) :
    ∀ (l : List PortCfg) (idx : Nat),
      (portsFromExplicit vn mp vid sw idx l).map (fun p => p.port_index) =
        List.range' (idx + 1) l.length := by
  intro l
  induction l with
  | nil => intro idx; rfl
  | cons pc rest ih =>
    intro idx
    simp only [portsFromExplicit, List.map_cons, List.length_cons, List.range']
    rw [ih (idx + 1)]

theorem portsFromExplicit_mem (vn mp : String) (vid : Nat) (sw : LogicalSwitch) :
    ∀ (l : List PortCfg) (idx : Nat) (p : LogicalSwitchPort),
      p ∈ portsFromExplicit vn mp vid sw idx l →
      p.macPfx = mp ∧ p.vpc_id = vid ∧ p.switch_id = sw.id ∧ idx + 1 ≤ p.port_index := by
  intro l
  induction l with
  | nil => intro idx p hp; simp [portsFromExplicit] at hp
  | cons pc rest ih =>
    intro idx p hp
    rw [portsFromExplicit] at hp
    rcases List.mem_cons.mp hp with h | h
    · subst h; exact ⟨rfl, rfl, rfl, le_refl _⟩
    · obtain ⟨h1, h2, h3, h4⟩ := ih (idx + 1) p h
      exact ⟨h1, h2, h3, by omega⟩

theorem portsAutogen_mem (vn mp : String) (vid : Nat) (sw : LogicalSwitch) (count : Nat)
    (p : LogicalSwitchPort) (hp : p ∈ portsAutogen vn mp vid sw count) :
    p.macPfx = mp ∧ p.vpc_id = vid ∧ p.switch_id = sw.id ∧ 1 ≤ p.port_index := by
  rw [portsAutogen] at hp
  obtain ⟨i, hi, hpi⟩ := List.mem_map.mp hp
  obtain ⟨j, _, hj⟩ := List.mem_range'.mp hi
  subst hpi
  refine ⟨rfl, rfl, rfl, ?_⟩
  show 1 ≤ i
  omega

theorem portsAutogen_map_index (vn mp : String) (vid : Nat) (sw : LogicalSwitch)
    (count : Nat) :
    (portsAutogen vn mp vid sw count).map (fun p => p.port_index) =
      List.range' 1 (min count sw.usable_ips.length) := by
  rw [portsAutogen, List.map_map]
  simp [Function.comp_def]

theorem portsAutogen_length (vn mp : String) (vid : Nat) (sw : LogicalSwitch)
    (count : Nat) :
    (portsAutogen vn mp vid sw count).length = min count sw.usable_ips.length := by
  rw [portsAutogen, List.length_map, List.length_range']

theorem portsFromExplicit_length (vn mp : String) (vid : Nat) (sw : LogicalSwitch)
    (l : List PortCfg) (idx : Nat) :
    (portsFromExplicit vn mp vid sw idx l).length = l.length := by
  have hlen := congrArg List.length (portsFromExplicit_map_index vn mp vid sw l idx)
  rw [List.length_map, List.length_range'] at hlen
  exact hlen

set_option maxRecDepth 4000 in
/-- C6.  Every port created by `_add_ports_to_switch` — explicit or
autogenerated — carries the MAC
`{prefix}:{vpc id:02x}:{switch id:02x}:{index:02x}` and a nonzero index;
the indices of the created port list are exactly `1..N` in list order; ids
up to 255 render as exactly two hex digits; and the specification's
example (prefix `e1:cc:ff`, VPC id 1, switch id 1, index 3) gives
`e1:cc:ff:01:01:03`. -/
theorem c6_mac_formula_and_indices (vn mp : String) (vid : Nat) (vpcPC : Option Nat)
    (sw : LogicalSwitch) (cfg : SwitchCfg) :
    ((addPortsToSwitch vn mp vid vpcPC sw cfg).map (fun p => p.port_index) =
       List.range' 1 (addPortsToSwitch vn mp vid vpcPC sw cfg).length) ∧
    (∀ p ∈ addPortsToSwitch vn mp vid vpcPC sw cfg,
       p.mac = mp ++ ":" ++ toHex2 vid ++ ":" ++ toHex2 sw.id ++ ":" ++ toHex2 p.port_index ∧
       p.port_index ≠ 0) ∧
    (∀ n : Nat, n ≤ 255 → (toHex2 n).length = 2) ∧
    c6Port.mac = "e1:cc:ff:01:01:03" := by
  have hmem : ∀ p ∈ addPortsToSwitch vn mp vid vpcPC sw cfg,
      p.macPfx = mp ∧ p.vpc_id = vid ∧ p.switch_id = sw.id ∧ 1 ≤ p.port_index := by
    intro p hp
    rcases hc : cfg.ports with - | l
    · simp only [addPortsToSwitch, hc] at hp
      rcases hpc : pyOrCount cfg.port_count vpcPC with - | m
      · rw [hpc] at hp; simp at hp
      · rw [hpc] at hp; exact portsAutogen_mem vn mp vid sw m p hp
    · rcases l with - | ⟨pc, rest⟩
      · simp only [addPortsToSwitch, hc] at hp
        rcases hpc : pyOrCount cfg.port_count vpcPC with - | m
        · rw [hpc] at hp; simp at hp
        · rw [hpc] at hp; exact portsAutogen_mem vn mp vid sw m p hp
      · simp only [addPortsToSwitch, hc] at hp
        obtain ⟨h1, h2, h3, h4⟩ := portsFromExplicit_mem vn mp vid sw (pc :: rest) 0 p hp
        exact ⟨h1, h2, h3, h4⟩
  refine ⟨?_, ?_, ?_, ?_⟩
  · rcases hc : cfg.ports with - | l
    · simp only [addPortsToSwitch, hc]
      rcases hpc : pyOrCount cfg.port_count vpcPC with - | m
      · rfl
      · rw [portsAutogen_map_index, portsAutogen_length]
    · rcases l with - | ⟨pc, rest⟩
      · simp only [addPortsToSwitch, hc]
        rcases hpc : pyOrCount cfg.port_count vpcPC with - | m
        · rfl
        · rw [portsAutogen_map_index, portsAutogen_length]
      · simp only [addPortsToSwitch, hc]
        rw [portsFromExplicit_map_index, portsFromExplicit_length]
  · intro p hp
    obtain ⟨h1, h2, h3, h4⟩ := hmem p hp
    constructor
    · rw [LogicalSwitchPort.mac, h1, h2, h3]
    · omega
  · decide
  · decide

/-- Witness for `c6_mac_formula_and_indices`: the explicit two-port switch
`c6Cfg` gets indices `[1, 2]`, and the example MAC evaluates as claimed. -/
theorem c6_mac_formula_and_indices_witness :
    ((addPortsToSwitch "vlab" "e1:cc:ff" 1 none c6Shell c6Cfg).map (fun p => p.port_index) =
       [1, 2]) ∧
    (toHex2 255).length = 2 ∧
    c6Port.mac = "e1:cc:ff:01:01:03" := by
  have h := c6_mac_formula_and_indices "vlab" "e1:cc:ff" 1 none c6Shell c6Cfg
  refine ⟨h.1.trans (by decide), h.2.2.1 255 (by decide), h.2.2.2⟩

/-- C3, amended statement.  `_connect_switch_to_router` (over the gateway
values it read) skips the attachment as a whole only when BOTH interface
objects already exist; when exactly one of them exists, it creates only the
missing one — router-side interface `{router}-{switch}`, switch-side
interface `{switch}-{router}` — and when neither exists it creates both. -/
theorem c3_attachment_guard (lrFull swFull swName ip mac : String) (s : NBState)
    (hip : ip ≠ "") (hmac : mac ≠ "") :
    ((lrFull ++ "-" ++ swName) ∈ s.lrps → (swFull ++ "-" ++ lrFull) ∈ s.lsps →
       connectOps lrFull swFull swName (some ip) (some mac) s = []) ∧
    ((lrFull ++ "-" ++ swName) ∈ s.lrps → (swFull ++ "-" ++ lrFull) ∉ s.lsps →
       connectOps lrFull swFull swName (some ip) (some mac) s =
         [Op.lspAdd swFull (swFull ++ "-" ++ lrFull),
          Op.lspSetType (swFull ++ "-" ++ lrFull) "router",
          Op.lspSetOptions (swFull ++ "-" ++ lrFull) (lrFull ++ "-" ++ swName),
          Op.lspSetAddresses (swFull ++ "-" ++ lrFull) ["router"]]) ∧
    ((lrFull ++ "-" ++ swName) ∉ s.lrps → (swFull ++ "-" ++ lrFull) ∈ s.lsps →
       connectOps lrFull swFull swName (some ip) (some mac) s =
         [Op.lrpAdd lrFull (lrFull ++ "-" ++ swName) mac [ip]]) ∧
    ((lrFull ++ "-" ++ swName) ∉ s.lrps → (swFull ++ "-" ++ lrFull) ∉ s.lsps →
       connectOps lrFull swFull swName (some ip) (some mac) s =
         [Op.lrpAdd lrFull (lrFull ++ "-" ++ swName) mac [ip],
          Op.lspAdd swFull (swFull ++ "-" ++ lrFull),
          Op.lspSetType (swFull ++ "-" ++ lrFull) "router",
          Op.lspSetOptions (swFull ++ "-" ++ lrFull) (lrFull ++ "-" ++ swName),
          Op.lspSetAddresses (swFull ++ "-" ++ lrFull) ["router"]]) := by
  refine ⟨?_, ?_, ?_, ?_⟩ <;> intro h1 h2 <;>
    simp [connectOps, h1, h2, hip, hmac]

/-- Witness for `c3_attachment_guard`: against an empty database, the
attachment of `vlab-ls1` to `vlab-lr` creates both interfaces. -/
theorem c3_attachment_guard_witness :
    connectOps "vlab-lr" "vlab-ls1" "ls1" (some "192.168.1.1/24") (some "e1:cc:ff:01:01:00")
        emptyNB =
      [Op.lrpAdd "vlab-lr" "vlab-lr-ls1" "e1:cc:ff:01:01:00" ["192.168.1.1/24"],
       Op.lspAdd "vlab-ls1" "vlab-ls1-vlab-lr",
       Op.lspSetType "vlab-ls1-vlab-lr" "router",
       Op.lspSetOptions "vlab-ls1-vlab-lr" "vlab-lr-ls1",
       Op.lspSetAddresses "vlab-ls1-vlab-lr" ["router"]] :=
  (c3_attachment_guard "vlab-lr" "vlab-ls1" "ls1" "192.168.1.1/24" "e1:cc:ff:01:01:00"
      emptyNB (by decide) (by decide)).2.2.2 (by decide) (by decide)

/-- C3, counterexample to the claim as stated: with the router-side
interface `vlab-lr-ls1` already present and the switch-side interface
absent, `_connect_switch_to_router` does NOT skip the attachment — it
creates the switch-side interface (four operations), contradicting "if
either one already exists, the attachment is skipped as a whole — no
create operation is issued for either interface". -/
theorem c3_half_attachment_counterexample :
    ("vlab-lr-ls1" ∈ c3HalfState.lrps) ∧
    connectOps "vlab-lr" "vlab-ls1" "ls1" (some "192.168.1.1/24") (some "e1:cc:ff:01:01:00")
        c3HalfState =
      [Op.lspAdd "vlab-ls1" "vlab-ls1-vlab-lr",
       Op.lspSetType "vlab-ls1-vlab-lr" "router",
       Op.lspSetOptions "vlab-ls1-vlab-lr" "vlab-lr-ls1",
       Op.lspSetAddresses "vlab-ls1-vlab-lr" ["router"]] ∧
    connectOps "vlab-lr" "vlab-ls1" "ls1" (some "192.168.1.1/24") (some "e1:cc:ff:01:01:00")
        c3HalfState ≠ [] := by
  refine ⟨?_, ?_, ?_⟩ <;> decide

/-- C1 (code bug).  In the configuration `c1Cfg` the VPC supplies a default
port count and switch `ls2` gives neither ports nor a port count; contrary
to the claim (and to the deriver's own fallback, to the docstring of
`inject_vpc_port_count`, and to `test_topology_build`), validation rejects
the configuration: the `Switch` root validator runs before the VPC default
can be injected and never sees it.  The second conjunct shows the deriver
itself would apply the fallback — `ls2` would receive the VPC's 2 ports. -/
theorem c1_vpc_default_fallback_rejected :
    validateLabConfig c1Cfg = Except.error "Must specify either ports or port_count" ∧
    (addPortsToSwitch "vlab" "e1:cc:ff" 1 (some 2) c1Ls2Shell c1Ls2Cfg).length = 2 :=
  ⟨rfl, by decide⟩

/-- C7 (code bug).  The configuration `c7Cfg` — one routed, DHCP-enabled
switch — validates, but deriving its topology raises: building the DHCP
options reads `LogicalSwitch.dhcp_server_mac`, which accesses the never
assigned attribute `vpc_mac_prefix`.  So no router (and no gateway
mapping) is ever derived for it, contrary to the claim and to the
repository's own `test_topology_build` / `test_logical_switch`
expectations.  The last two conjuncts record the claim's true fragment: a
routed switch without DHCP yields no gateway MAC. -/
theorem c7_routed_dhcp_derivation_raises :
    validateLabConfig c7Cfg = Except.ok () ∧
    deriveLab c7Cfg = Except.error attrErrMsg ∧
    c7SwNoDhcp.routed = true ∧
    c7SwNoDhcp.router_port_mac = Except.ok none :=
  ⟨rfl, rfl, rfl, rfl⟩

/-- C8, counterexample to the claim as stated: `c8Cfg` carries VPC id 999
and switch id 300 — both outside 0-255 — yet validation accepts it (no
range check exists on either id field). -/
theorem c8_out_of_range_ids_accepted :
    c8Cfg.vpc.id = 999 ∧ (c8Cfg.switches.map (fun s => s.id)) = [300] ∧
    validateLabConfig c8Cfg = Except.ok () :=
  ⟨rfl, rfl, rfl⟩

set_option maxRecDepth 4000 in
/-- C8, amended statement.  Validation never inspects the VPC id (replacing
it changes no validation outcome), ids in 0-255 do encode as exactly two
hex digits, and the out-of-range configuration `c8Cfg` passes validation. -/
theorem c8_ids_not_range_checked :
    (∀ (c : LabConfig) (n : Nat), validateLabConfig (setVpcId c n) = validateLabConfig c) ∧
    (∀ n : Nat, n ≤ 255 → (toHex2 n).length = 2) ∧
    validateLabConfig c8Cfg = Except.ok () := by
  refine ⟨fun c n => rfl, ?_, rfl⟩
  decide

/-- Witness for `c8_ids_not_range_checked`. -/
theorem c8_ids_not_range_checked_witness :
    validateLabConfig (setVpcId c8Cfg 5) = validateLabConfig c8Cfg ∧
    (toHex2 7).length = 2 :=
  ⟨(c8_ids_not_range_checked).1 c8Cfg 5, (c8_ids_not_range_checked).2.1 7 (by decide)⟩

theorem NBSub.rfl (s : NBState) : NBSub s s :=
  ⟨fun _ h => h, fun _ h => h, fun _ h => h, fun _ h => h⟩

theorem NBSub.trans {a b c : NBState} (h1 : NBSub a b) (h2 : NBSub b c) : NBSub a c :=
  ⟨fun x h => h2.1 x (h1.1 x h), fun x h => h2.2.1 x (h1.2.1 x h),
   fun x h => h2.2.2.1 x (h1.2.2.1 x h), fun x h => h2.2.2.2 x (h1.2.2.2 x h)⟩

theorem applyOp_sub (s : NBState) (op : Op) (h : op.isDel = false) :
    NBSub s (s.applyOp op) := by
  cases op <;> simp_all [NBState.applyOp, Op.isDel, NBSub]

theorem applyOps_sub (ops : List Op) (h : ∀ op ∈ ops, op.isDel = false) :
    ∀ s : NBState, NBSub s (s.applyOps ops) := by
  induction ops with
  | nil => intro s; exact NBSub.rfl s
  | cons op rest ih =>
    intro s
    have h1 : op.isDel = false := h op (List.mem_cons_self op rest)
    have h2 : ∀ o ∈ rest, o.isDel = false := fun o ho => h o (List.mem_cons_of_mem op ho)
    exact NBSub.trans (applyOp_sub s op h1) (ih h2 (s.applyOp op))

theorem createLrOps_nodel (r : LogicalRouter) (s : NBState) :
    ∀ op ∈ createLrOps r s, op.isDel = false := by
  intro op hop
  rw [createLrOps] at hop
  split at hop <;> simp_all [Op.isDel]

theorem createLsOps_nodel (sw : LogicalSwitch) (s : NBState) :
    ∀ op ∈ createLsOps sw s, op.isDel = false := by
  intro op hop
  rw [createLsOps] at hop
  split at hop <;> simp_all [Op.isDel]

theorem createLspOps_nodel (sw : LogicalSwitch) (p : LogicalSwitchPort) (s : NBState) :
    ∀ op ∈ createLspOps sw p s, op.isDel = false := by
  intro op hop
  rw [createLspOps] at hop
  split at hop
  · simp_all
  · simp only [List.mem_cons, List.not_mem_nil, or_false] at hop
    rcases hop with h | h | h <;> subst h <;> rfl

theorem connectOps_mac_none (lrFull swFull swName : String) (ip : Option String)
    (s : NBState) : connectOps lrFull swFull swName ip none s = [] := by
  cases ip <;> rfl

theorem router_port_mac_of_not_dhcp (sw : LogicalSwitch) (h : sw.dhcp_enable = false) :
    sw.router_port_mac = Except.ok none := by
  rw [LogicalSwitch.router_port_mac, if_pos]
  right
  simp [h]

theorem createLr_post (r : LogicalRouter) (s : NBState) :
    r.full_name ∈ (s.applyOps (createLrOps r s)).lrs := by
  rw [createLrOps]
  split
  · assumption
  · simp [NBState.applyOps, NBState.applyOp]

theorem buildPortsRun_spec (sw : LogicalSwitch) :
    ∀ (ports : List LogicalSwitchPort) (s : NBState),
      NBSub s (buildPortsRun sw ports s).1 ∧
      ∀ p ∈ ports, p.full_name ∈ (buildPortsRun sw ports s).1.lsps := by
  intro ports
  induction ports with
  | nil => intro s; exact ⟨NBSub.rfl s, by simp⟩
  | cons p rest ih =>
    intro s
    rw [buildPortsRun]
    have hstep : NBSub s (s.applyOps (createLspOps sw p s)) ∧
        p.full_name ∈ (s.applyOps (createLspOps sw p s)).lsps := by
      rw [createLspOps]
      split
      · exact ⟨NBSub.rfl s, by assumption⟩
      · constructor
        · apply applyOps_sub
          intro op hop
          simp only [List.mem_cons, List.not_mem_nil, or_false] at hop
          rcases hop with h | h | h <;> subst h <;> rfl
        · simp [NBState.applyOps, NBState.applyOp]
    obtain ⟨hrest, hmem⟩ := ih (s.applyOps (createLspOps sw p s))
    refine ⟨NBSub.trans hstep.1 hrest, ?_⟩
    intro q hq
    rcases List.mem_cons.mp hq with h | h
    · subst h; exact hrest.2.2.1 q.full_name hstep.2
    · exact hmem q h

theorem buildPortsRun_skip (sw : LogicalSwitch) :
    ∀ (ports : List LogicalSwitchPort) (s : NBState),
      (∀ p ∈ ports, p.full_name ∈ s.lsps) → buildPortsRun sw ports s = (s, []) := by
  intro ports
  induction ports with
  | nil => intro s _; rfl
  | cons p rest ih =>
    intro s hpre
    have h1 : createLspOps sw p s = [] := by
      rw [createLspOps, if_pos (hpre p (List.mem_cons_self p rest))]
    rw [buildPortsRun, h1]
    have : s.applyOps [] = s := rfl
    rw [this, ih s (fun q hq => hpre q (List.mem_cons_of_mem p hq))]
    rfl

theorem buildSwitchRun_spec (router : Option LogicalRouter) (sw : LogicalSwitch)
    (hd : sw.dhcp_enable = false) (s : NBState) :
    ∃ s2 ops, buildSwitchRun router sw s = Except.ok (s2, ops) ∧ NBSub s s2 ∧
      sw.full_name ∈ s2.lss ∧ ∀ p ∈ sw.ports, p.full_name ∈ s2.lsps := by
  have hops2 : (if sw.dhcp_enable ∧ sw.dhcp_options.isSome then createDhcpOps sw else []) =
      [] := by
    rw [if_neg]
    simp [hd]
  have hstep1 : NBSub s (s.applyOps (createLsOps sw s)) ∧
      sw.full_name ∈ (s.applyOps (createLsOps sw s)).lss := by
    rw [createLsOps]
    split
    · exact ⟨NBSub.rfl s, by assumption⟩
    · constructor
      · apply applyOps_sub
        intro op hop
        simp only [List.mem_cons, List.not_mem_nil, or_false] at hop
        subst hop; rfl
      · simp [NBState.applyOps, NBState.applyOp]
  set s1 := s.applyOps (createLsOps sw s) with hs1
  obtain ⟨hsubp, hmemp⟩ := buildPortsRun_spec sw sw.ports s1
  have hsub2 : NBSub s (buildPortsRun sw sw.ports s1).1 := NBSub.trans hstep1.1 hsubp
  have hss2 : sw.full_name ∈ (buildPortsRun sw sw.ports s1).1.lss :=
    hsubp.2.1 sw.full_name hstep1.2
  rcases router with - | r
  · rw [buildSwitchRun, hops2]
    exact ⟨(buildPortsRun sw sw.ports s1).1, _, rfl, hsub2, hss2, hmemp⟩
  · rw [buildSwitchRun, hops2]
    cases hr : sw.routed
    · rw [if_neg (by simp [hr])]
      exact ⟨(buildPortsRun sw sw.ports s1).1, _, rfl, hsub2, hss2, hmemp⟩
    · rw [if_pos (by simp [hr]), router_port_mac_of_not_dhcp sw hd]
      have h4 : connectOps r.full_name sw.full_name sw.name sw.router_port_ip none
          (buildPortsRun sw sw.ports s1).1 = [] := connectOps_mac_none _ _ _ _ _
      refine ⟨(buildPortsRun sw sw.ports s1).1,
        createLsOps sw s ++ [] ++ (buildPortsRun sw sw.ports s1).2 ++ [], ?_,
        hsub2, hss2, hmemp⟩
      show Except.ok ((buildPortsRun sw sw.ports s1).1.applyOps (connectOps r.full_name
          sw.full_name sw.name sw.router_port_ip none (buildPortsRun sw sw.ports s1).1),
        createLsOps sw s ++ [] ++ (buildPortsRun sw sw.ports s1).2 ++ connectOps r.full_name
          sw.full_name sw.name sw.router_port_ip none (buildPortsRun sw sw.ports s1).1) = _
      rw [h4]
      rfl

theorem buildSwitchRun_skip (router : Option LogicalRouter) (sw : LogicalSwitch)
    (hd : sw.dhcp_enable = false) (s : NBState) (hls : sw.full_name ∈ s.lss)
    (hps : ∀ p ∈ sw.ports, p.full_name ∈ s.lsps) :
    buildSwitchRun router sw s = Except.ok (s, []) := by
  have h1 : createLsOps sw s = [] := by rw [createLsOps, if_pos hls]
  have hops2 : (if sw.dhcp_enable ∧ sw.dhcp_options.isSome then createDhcpOps sw else []) =
      [] := by
    rw [if_neg]
    simp [hd]
  have hpr : buildPortsRun sw sw.ports (NBState.applyOps (s.applyOps []) []) = (s, []) := by
    show buildPortsRun sw sw.ports s = (s, [])
    exact buildPortsRun_skip sw sw.ports s hps
  rcases router with - | r
  · rw [buildSwitchRun, h1, hops2]
    rw [hpr]
    rfl
  · rw [buildSwitchRun, h1, hops2]
    cases hr : sw.routed
    · rw [if_neg (by simp [hr]), hpr]
      rfl
    · rw [if_pos (by simp [hr]), router_port_mac_of_not_dhcp sw hd, hpr]
      show Except.ok ((s.applyOps (connectOps r.full_name sw.full_name sw.name
          sw.router_port_ip none s)), [] ++ [] ++ [] ++ connectOps r.full_name
          sw.full_name sw.name sw.router_port_ip none s) = _
      rw [connectOps_mac_none]
      rfl

theorem buildSwitchesRun_spec (router : Option LogicalRouter) :
    ∀ (l : List LogicalSwitch), noDhcp l → ∀ s : NBState,
      ∃ s2 ops, buildSwitchesRun router l s = Except.ok (s2, ops) ∧ NBSub s s2 ∧
        ∀ sw ∈ l, sw.full_name ∈ s2.lss ∧ ∀ p ∈ sw.ports, p.full_name ∈ s2.lsps := by
  intro l
  induction l with
  | nil => intro _ s; exact ⟨s, [], rfl, NBSub.rfl s, by simp⟩
  | cons sw rest ih =>
    intro hnd s
    have hd : sw.dhcp_enable = false := hnd sw (List.mem_cons_self sw rest)
    obtain ⟨s2, ops, heq, hsub, hls, hps⟩ := buildSwitchRun_spec router sw hd s
    obtain ⟨s3, ops2, heq2, hsub2, hrest⟩ :=
      ih (fun q hq => hnd q (List.mem_cons_of_mem sw hq)) s2
    refine ⟨s3, ops ++ ops2, ?_, NBSub.trans hsub hsub2, ?_⟩
    · rw [buildSwitchesRun, heq]
      show (buildSwitchesRun router rest s2).bind _ = _
      rw [heq2]
      rfl
    · intro q hq
      rcases List.mem_cons.mp hq with h | h
      · subst h
        exact ⟨hsub2.2.1 q.full_name hls, fun p hp => hsub2.2.2.1 p.full_name (hps p hp)⟩
      · exact hrest q h

theorem buildSwitchesRun_skip (router : Option LogicalRouter) :
    ∀ (l : List LogicalSwitch), noDhcp l → ∀ s : NBState,
      (∀ sw ∈ l, sw.full_name ∈ s.lss ∧ ∀ p ∈ sw.ports, p.full_name ∈ s.lsps) →
      buildSwitchesRun router l s = Except.ok (s, []) := by
  intro l
  induction l with
  | nil => intro _ s _; rfl
  | cons sw rest ih =>
    intro hnd s hpre
    have hd : sw.dhcp_enable = false := hnd sw (List.mem_cons_self sw rest)
    have h1 := buildSwitchRun_skip router sw hd s (hpre sw (List.mem_cons_self sw rest)).1
      (hpre sw (List.mem_cons_self sw rest)).2
    rw [buildSwitchesRun, h1]
    show (buildSwitchesRun router rest s).bind _ = _
    rw [ih (fun q hq => hnd q (List.mem_cons_of_mem sw hq)) s
      (fun q hq => hpre q (List.mem_cons_of_mem sw hq))]
    rfl

theorem parse_prefixlen_le (str : String) (net : IPv4Net)
    (h : parseIPv4Network str = some net) : net.prefixlen ≤ 32 := by
  rw [parseIPv4Network] at h
  split at h
  · split at h
    · injection h with h2
      rw [← h2]
    · exact absurd h (by simp)
  · split at h
    · split at h
      · rename_i hcond
        injection h with h2
        rw [← h2]
        exact hcond.1
      · exact absurd h (by simp)
    · exact absurd h (by simp)
  · exact absurd h (by simp)

theorem deriveSwitch_ok_not_dhcp (vpc : VPCCfg) (cfg : SwitchCfg) (sw : LogicalSwitch)
    (h : deriveSwitch vpc cfg = Except.ok sw) : sw.dhcp_enable = false := by
  rw [deriveSwitch] at h
  split at h
  · exact absurd h (by simp)
  · rename_i net hp
    cases hd : cfg.dhcp_enable
    · rw [if_neg (by simp [hd])] at h
      injection h with h2
      rw [← h2]
      exact hd
    · rw [if_pos hd, setupDhcpOptions] at h
      split at h
      · rename_i hnil
        exact absurd hnil (hosts_ne_nil net (parse_prefixlen_le cfg.subnet net hp))
      · rw [LogicalSwitch.dhcp_server_mac] at h
        have h2 : (Except.error attrErrMsg : Except String LogicalSwitch) = Except.ok sw := h
        exact absurd h2 (by simp)

theorem dictUpd_forall {P : LogicalSwitch → Prop} :
    ∀ (d : List (String × LogicalSwitch)) (k : String) (v : LogicalSwitch),
      (∀ kv ∈ d, P kv.2) → P v → ∀ kv ∈ dictUpd d k v, P kv.2 := by
  intro d
  induction d with
  | nil =>
    intro k v _ hv kv hkv
    rw [dictUpd] at hkv
    simp only [List.mem_cons, List.not_mem_nil, or_false] at hkv
    subst hkv; exact hv
  | cons kv0 rest ih =>
    intro k v hall hv kv hkv
    rw [dictUpd] at hkv
    split at hkv
    · rcases List.mem_cons.mp hkv with h | h
      · subst h; exact hv
      · exact hall kv (List.mem_cons_of_mem kv0 h)
    · rcases List.mem_cons.mp hkv with h | h
      · subst h; exact hall kv0 (List.mem_cons_self kv0 rest)
      · exact ih k v (fun q hq => hall q (List.mem_cons_of_mem kv0 hq)) hv kv h

theorem deriveSwitches_not_dhcp (vpc : VPCCfg) :
    ∀ (cfgs : List SwitchCfg) (acc l : List (String × LogicalSwitch)),
      (∀ kv ∈ acc, kv.2.dhcp_enable = false) →
      deriveSwitches vpc cfgs acc = Except.ok l →
      ∀ kv ∈ l, kv.2.dhcp_enable = false := by
  intro cfgs
  induction cfgs with
  | nil =>
    intro acc l hacc h
    rw [deriveSwitches] at h
    injection h with h2
    rw [← h2]
    exact hacc
  | cons cfg rest ih =>
    intro acc l hacc h
    rw [deriveSwitches] at h
    rcases hs : deriveSwitch vpc cfg with e | sw
    · rw [hs] at h
      have h2 : (Except.error e : Except String (List (String × LogicalSwitch))) =
          Except.ok l := h
      exact absurd h2 (by simp)
    · rw [hs] at h
      have hstep : ∀ kv ∈ dictUpd acc cfg.name sw, kv.2.dhcp_enable = false :=
        @dictUpd_forall (fun q => q.dhcp_enable = false) acc cfg.name sw hacc
          (deriveSwitch_ok_not_dhcp vpc cfg sw hs)
      exact ih (dictUpd acc cfg.name sw) l hstep h

theorem except_bind_ok {α β : Type} (x : Except String α) (f : α → Except String β) (b : β)
    (h : x >>= f = Except.ok b) : ∃ a, x = Except.ok a ∧ f a = Except.ok b := by
  cases x with
  | error e => exact absurd h (by simp [Bind.bind, Except.bind])
  | ok a => exact ⟨a, rfl, h⟩

theorem deriveLab_not_dhcp (cfg : LabConfig) (t : Topology)
    (h : deriveLab cfg = Except.ok t) : noDhcp t.switchObjs := by
  rw [deriveLab] at h
  obtain ⟨sws, hs, h2⟩ := except_bind_ok _ _ _ h
  obtain ⟨router, hr, h3⟩ := except_bind_ok _ _ _ h2
  injection h3 with h5
  have hsws := deriveSwitches_not_dhcp cfg.vpc cfg.switches [] sws (by simp) hs
  intro sw hsw
  rw [Topology.switchObjs, ← h5] at hsw
  obtain ⟨kv, hkv, hkv2⟩ := List.mem_map.mp hsw
  rw [← hkv2]
  exact hsws kv hkv

theorem destroyPortsRun_empty :
    ∀ ports : List LogicalSwitchPort, destroyPortsRun ports emptyNB = (emptyNB, []) := by
  intro ports
  induction ports with
  | nil => rfl
  | cons p rest ih =>
    rw [destroyPortsRun]
    have h1 : deleteLspOps p emptyNB = [] := by
      rw [deleteLspOps, if_neg (by simp [emptyNB])]
    rw [h1]
    show ((destroyPortsRun rest emptyNB).1, [] ++ (destroyPortsRun rest emptyNB).2) = _
    rw [ih]
    rfl

theorem destroySwitchRun_empty (sw : LogicalSwitch) :
    destroySwitchRun sw emptyNB = (emptyNB, ([], [], [])) := by
  simp only [destroySwitchRun, destroyPortsRun_empty]
  simp [deleteDhcpOps, deleteLsOps, NBState.applyOps, emptyNB]

theorem destroySwitchesRun_empty :
    ∀ l : List LogicalSwitch,
      destroySwitchesRun l emptyNB = (emptyNB, l.map (fun _ => ([], [], []))) := by
  intro l
  induction l with
  | nil => rfl
  | cons sw rest ih =>
    rw [destroySwitchesRun, destroySwitchRun_empty]
    show ((destroySwitchesRun rest emptyNB).1,
      ([], [], []) :: (destroySwitchesRun rest emptyNB).2) = _
    rw [ih]
    rfl

theorem destroyDetachRun_cons (router : Option LogicalRouter) (sw : LogicalSwitch)
    (rest : List LogicalSwitch) (s : NBState) :
    destroyDetachRun router (sw :: rest) s =
      (let ops := match router with
        | some r =>
          if sw.routed then disconnectOps r.full_name sw.full_name sw.name s else []
        | none => []
       let next := destroyDetachRun router rest (s.applyOps ops)
       (next.1, ops ++ next.2)) := rfl

theorem destroyDetachRun_empty (router : Option LogicalRouter) :
    ∀ l : List LogicalSwitch, destroyDetachRun router l emptyNB = (emptyNB, []) := by
  intro l
  induction l with
  | nil => rfl
  | cons sw rest ih =>
    have h1 : (match router with
        | some r =>
          if sw.routed then disconnectOps r.full_name sw.full_name sw.name emptyNB else []
        | none => []) = [] := by
      rcases router with - | r
      · rfl
      · cases hr : sw.routed
        · simp [hr]
        · simp [hr, disconnectOps, emptyNB]
    rw [destroyDetachRun_cons]
    simp only [h1]
    show ((destroyDetachRun router rest emptyNB).1,
      [] ++ (destroyDetachRun router rest emptyNB).2) = _
    rw [ih]
    rfl

theorem destroyRun_never_built (t : Topology) : destroyOps t emptyNB = [] := by
  have h2 : routerDeleteOps t.router emptyNB = [] := by
    rcases hrt : t.router with - | r
    · simp [routerDeleteOps]
    · simp [routerDeleteOps, deleteLrOps, emptyNB]
  rw [destroyOps, destroyRun, destroyDetachRun_empty]
  show ([] : List Op) ++ routerDeleteOps t.router emptyNB ++
    ((destroySwitchesRun t.switchObjs
        (emptyNB.applyOps (routerDeleteOps t.router emptyNB))).2.map
      (fun g => g.1 ++ g.2.1 ++ g.2.2)).flatten = []
  rw [h2]
  show ([] : List Op) ++ [] ++
    ((destroySwitchesRun t.switchObjs emptyNB).2.map
      (fun g => g.1 ++ g.2.1 ++ g.2.2)).flatten = []
  rw [destroySwitchesRun_empty]
  simp

/-- C5.  Build and destroy are idempotent over the modelled control-plane
state: for every configuration whose derivation succeeds, a completed build
run from ANY starting state leaves a state from which a second build run
issues no operation at all (every existence check short-circuits), and a
destroy run against the empty control plane — a specification that was
never built — issues no delete operation and raises no error. -/
theorem c5_idempotent_build_and_destroy :
    (∀ (cfg : LabConfig) (t : Topology) (s : NBState) (p : NBState × List Op),
       deriveLab cfg = Except.ok t → buildRun t s = Except.ok p →
       buildRun t p.1 = Except.ok (p.1, [])) ∧
    (∀ t : Topology, destroyOps t emptyNB = []) := by
  constructor
  · intro cfg t s p hderive hbuild
    have hnd := deriveLab_not_dhcp cfg t hderive
    rw [buildRun] at hbuild
    obtain ⟨q, hq, hq2⟩ := except_bind_ok _ _ _ hbuild
    have hp : p = (q.1, routerCreateOps t.router s ++ q.2) := by
      have h3 : Except.ok (q.1, routerCreateOps t.router s ++ q.2) = Except.ok p := hq2
      exact (Except.ok.inj h3).symm
    have hpost0 : ∀ r0, t.router = some r0 →
        r0.full_name ∈ (s.applyOps (routerCreateOps t.router s)).lrs := by
      intro r0 hr0
      rw [hr0, routerCreateOps]
      exact createLr_post r0 s
    obtain ⟨s2, ops, heq, hsub, hpost⟩ :=
      buildSwitchesRun_spec t.router t.switchObjs hnd
        (s.applyOps (routerCreateOps t.router s))
    have hq' : q = (s2, ops) := by
      rw [heq] at hq
      exact (Except.ok.inj hq).symm
    have hp1 : p.1 = s2 := by rw [hp, hq']
    have hlr2 : ∀ r0, t.router = some r0 → r0.full_name ∈ s2.lrs := by
      intro r0 hr0
      exact hsub.1 r0.full_name (hpost0 r0 hr0)
    have hops0 : routerCreateOps t.router p.1 = [] := by
      rcases hrt : t.router with - | r0
      · rfl
      · rw [routerCreateOps, createLrOps, if_pos]
        rw [hp1]
        exact hlr2 r0 hrt
    have hskip : buildSwitchesRun t.router t.switchObjs p.1 = Except.ok (p.1, []) := by
      rw [hp1]
      exact buildSwitchesRun_skip t.router t.switchObjs hnd s2 (fun sw hsw =>
        ⟨(hpost sw hsw).1, (hpost sw hsw).2⟩)
    rw [buildRun, hops0]
    have hskip' : buildSwitchesRun t.router t.switchObjs (p.1.applyOps []) =
        Except.ok (p.1, []) := hskip
    rw [hskip']
    rfl
  · exact destroyRun_never_built

/-- Witness for `c5_idempotent_build_and_destroy`: the one-switch
configuration `c5Cfg` derives `c5Topo`; after a first build from the empty
database (`c5Pair`), a second build issues nothing, and destroy against
the never-built empty database issues nothing. -/
theorem c5_idempotent_build_and_destroy_witness :
    buildRun c5Topo c5Pair.1 = Except.ok (c5Pair.1, []) ∧
    destroyOps c5Topo emptyNB = [] :=
  ⟨c5_idempotent_build_and_destroy.1 c5Cfg c5Topo emptyNB c5Pair rfl rfl,
   c5_idempotent_build_and_destroy.2 c5Topo⟩

theorem disconnectOps_mem (lrFull swFull swName : String) (s : NBState) (op : Op)
    (h : op ∈ disconnectOps lrFull swFull swName s) :
    op = Op.lrpDel (lrFull ++ "-" ++ swName) ∨ op = Op.lspDel (swFull ++ "-" ++ lrFull) := by
  rw [disconnectOps] at h
  rcases List.mem_append.mp h with h1 | h1
  · left
    split at h1
    · simp only [List.mem_cons, List.not_mem_nil, or_false] at h1
      exact h1
    · exact absurd h1 (by simp)
  · right
    split at h1
    · simp only [List.mem_cons, List.not_mem_nil, or_false] at h1
      exact h1
    · exact absurd h1 (by simp)

theorem destroyDetachRun_ops (router : Option LogicalRouter) :
    ∀ (l : List LogicalSwitch) (s : NBState) (op : Op),
      op ∈ (destroyDetachRun router l s).2 →
      ∃ r, router = some r ∧ ∃ sw ∈ l, sw.routed = true ∧
        (op = Op.lrpDel (r.full_name ++ "-" ++ sw.name) ∨
         op = Op.lspDel (sw.full_name ++ "-" ++ r.full_name)) := by
  intro l
  induction l with
  | nil => intro s op h; exact absurd h (by simp [destroyDetachRun])
  | cons sw rest ih =>
    intro s op h
    rw [destroyDetachRun_cons] at h
    rcases List.mem_append.mp h with h1 | h1
    · rcases hrt : router with - | r
      · rw [hrt] at h1; exact absurd h1 (by simp)
      · rw [hrt] at h1
        cases hr : sw.routed
        · rw [hr] at h1
          exact absurd h1 (by simp)
        · rw [hr] at h1
          simp only [if_true] at h1
          obtain hd := disconnectOps_mem r.full_name sw.full_name sw.name s op h1
          exact ⟨r, rfl, sw, List.mem_cons_self sw rest, hr, hd⟩
    · obtain ⟨r, hr, sw2, hsw2, hr2, hop⟩ := ih _ op h1
      exact ⟨r, hr, sw2, List.mem_cons_of_mem sw hsw2, hr2, hop⟩

theorem routerDeleteOps_mem (router : Option LogicalRouter) (s : NBState) (op : Op)
    (h : op ∈ routerDeleteOps router s) :
    ∃ r, router = some r ∧ op = Op.lrDel r.full_name := by
  rcases hrt : router with - | r
  · rw [hrt] at h; exact absurd h (by simp [routerDeleteOps])
  · rw [hrt, routerDeleteOps, deleteLrOps] at h
    split at h
    · simp only [List.mem_cons, List.not_mem_nil, or_false] at h
      exact ⟨r, rfl, h⟩
    · exact absurd h (by simp)

theorem destroyPortsRun_ops :
    ∀ (ports : List LogicalSwitchPort) (s : NBState) (op : Op),
      op ∈ (destroyPortsRun ports s).2 → ∃ p ∈ ports, op = Op.lspDel p.full_name := by
  intro ports
  induction ports with
  | nil => intro s op h; exact absurd h (by simp [destroyPortsRun])
  | cons p rest ih =>
    intro s op h
    rw [destroyPortsRun] at h
    rcases List.mem_append.mp h with h1 | h1
    · rw [deleteLspOps] at h1
      split at h1
      · simp only [List.mem_cons, List.not_mem_nil, or_false] at h1
        exact ⟨p, List.mem_cons_self p rest, h1⟩
      · exact absurd h1 (by simp)
    · obtain ⟨q, hq, hop⟩ := ih _ op h1
      exact ⟨q, List.mem_cons_of_mem p hq, hop⟩

theorem deleteDhcpOps_mem (sw : LogicalSwitch) (s : NBState) (op : Op)
    (h : op ∈ deleteDhcpOps sw s) : op = Op.dhcpOptionsDel sw.subnet.toCidr := by
  rw [deleteDhcpOps] at h
  rcases hf : s.dhcpOpts.find? (fun c => c = sw.subnet.toCidr) with - | c
  · rw [hf] at h; exact absurd h (by simp)
  · rw [hf] at h
    simp only [List.mem_cons, List.not_mem_nil, or_false] at h
    have := List.find?_some hf
    have hc : c = sw.subnet.toCidr := of_decide_eq_true this
    rw [h, hc]

theorem destroySwitchRun_group (sw : LogicalSwitch) (s : NBState) :
    (∀ op ∈ (destroySwitchRun sw s).2.1, ∃ p ∈ sw.ports, op = Op.lspDel p.full_name) ∧
    (∀ op ∈ (destroySwitchRun sw s).2.2.1,
       sw.dhcp_enable = true ∧ op = Op.dhcpOptionsDel sw.subnet.toCidr) ∧
    (∀ op ∈ (destroySwitchRun sw s).2.2.2, op = Op.lsDel sw.full_name) := by
  refine ⟨?_, ?_, ?_⟩
  · intro op hop
    have hop2 : op ∈ (destroyPortsRun sw.ports s).2 := hop
    exact destroyPortsRun_ops sw.ports s op hop2
  · intro op hop
    have hop2 : op ∈ (if sw.dhcp_enable then
        deleteDhcpOps sw (destroyPortsRun sw.ports s).1 else []) := hop
    cases hd : sw.dhcp_enable
    · rw [hd] at hop2
      simp at hop2
    · rw [hd] at hop2
      simp only [if_true] at hop2
      exact ⟨rfl, deleteDhcpOps_mem sw _ op hop2⟩
  · intro op hop
    have hop2 : op ∈ deleteLsOps sw (((destroyPortsRun sw.ports s).1).applyOps
        (if sw.dhcp_enable then deleteDhcpOps sw (destroyPortsRun sw.ports s).1 else [])) :=
      hop
    rw [deleteLsOps] at hop2
    split at hop2 <;> split at hop2 <;>
      first
        | (simp only [List.mem_cons, List.not_mem_nil, or_false] at hop2; exact hop2)
        | exact absurd hop2 (by simp)

theorem destroySwitchesRun_forall :
    ∀ (l : List LogicalSwitch) (s : NBState),
      List.Forall₂ (fun (sw : LogicalSwitch) (g : List Op × List Op × List Op) =>
        (∀ op ∈ g.1, ∃ p ∈ sw.ports, op = Op.lspDel p.full_name) ∧
        (∀ op ∈ g.2.1, sw.dhcp_enable = true ∧ op = Op.dhcpOptionsDel sw.subnet.toCidr) ∧
        (∀ op ∈ g.2.2, op = Op.lsDel sw.full_name)) l (destroySwitchesRun l s).2 := by
  intro l
  induction l with
  | nil => intro s; exact List.Forall₂.nil
  | cons sw rest ih =>
    intro s
    rw [destroySwitchesRun]
    exact List.Forall₂.cons (destroySwitchRun_group sw s) (ih _)

/-- C9.  The delete sequence of a destroy run decomposes as: all
router-attachment detaches (router-side `{router}-{switch}` and switch-side
`{switch}-{router}` interface deletions, one pair per routed switch), then
the router deletion, then — per switch, in order — its port deletions,
followed by its DHCP-options deletion (only for DHCP-enabled switches),
followed by the switch deletion itself. -/
theorem c9_destroy_delete_ordering (t : Topology) (s : NBState) :
    ∃ (detach rdel : List Op) (groups : List (List Op × List Op × List Op)),
      destroyOps t s =
        detach ++ rdel ++ (groups.map (fun g => g.1 ++ g.2.1 ++ g.2.2)).flatten ∧
      (∀ op ∈ detach, ∃ r, t.router = some r ∧ ∃ sw ∈ t.switchObjs, sw.routed = true ∧
         (op = Op.lrpDel (r.full_name ++ "-" ++ sw.name) ∨
          op = Op.lspDel (sw.full_name ++ "-" ++ r.full_name))) ∧
      (∀ op ∈ rdel, ∃ r, t.router = some r ∧ op = Op.lrDel r.full_name) ∧
      List.Forall₂ (fun (sw : LogicalSwitch) (g : List Op × List Op × List Op) =>
        (∀ op ∈ g.1, ∃ p ∈ sw.ports, op = Op.lspDel p.full_name) ∧
        (∀ op ∈ g.2.1, sw.dhcp_enable = true ∧ op = Op.dhcpOptionsDel sw.subnet.toCidr) ∧
        (∀ op ∈ g.2.2, op = Op.lsDel sw.full_name)) t.switchObjs groups := by
  refine ⟨(destroyDetachRun t.router t.switchObjs s).2,
    routerDeleteOps t.router (destroyDetachRun t.router t.switchObjs s).1,
    (destroySwitchesRun t.switchObjs
      (((destroyDetachRun t.router t.switchObjs s).1).applyOps
        (routerDeleteOps t.router (destroyDetachRun t.router t.switchObjs s).1))).2,
    rfl, ?_, ?_, ?_⟩
  · intro op hop
    exact destroyDetachRun_ops t.router t.switchObjs s op hop
  · intro op hop
    exact routerDeleteOps_mem t.router _ op hop
  · exact destroySwitchesRun_forall t.switchObjs _

/-- Witness for `c9_destroy_delete_ordering`: its decomposition at the
concrete topology `c5Topo` and the post-build state `c5Pair`. -/
theorem c9_destroy_delete_ordering_witness :
    ∃ (detach rdel : List Op) (groups : List (List Op × List Op × List Op)),
      destroyOps c5Topo c5Pair.1 =
        detach ++ rdel ++ (groups.map (fun g => g.1 ++ g.2.1 ++ g.2.2)).flatten ∧
      (∀ op ∈ detach, ∃ r, c5Topo.router = some r ∧ ∃ sw ∈ c5Topo.switchObjs,
         sw.routed = true ∧
         (op = Op.lrpDel (r.full_name ++ "-" ++ sw.name) ∨
          op = Op.lspDel (sw.full_name ++ "-" ++ r.full_name))) ∧
      (∀ op ∈ rdel, ∃ r, c5Topo.router = some r ∧ op = Op.lrDel r.full_name) ∧
      List.Forall₂ (fun (sw : LogicalSwitch) (g : List Op × List Op × List Op) =>
        (∀ op ∈ g.1, ∃ p ∈ sw.ports, op = Op.lspDel p.full_name) ∧
        (∀ op ∈ g.2.1, sw.dhcp_enable = true ∧ op = Op.dhcpOptionsDel sw.subnet.toCidr) ∧
        (∀ op ∈ g.2.2, op = Op.lsDel sw.full_name)) c5Topo.switchObjs groups :=
  c9_destroy_delete_ordering c5Topo c5Pair.1

theorem dictUpd_length (d : List (String × LogicalSwitch)) (k : String) (v : LogicalSwitch) :
    (dictUpd d k v).length ≤ d.length + 1 := by
  induction d with
  | nil => simp [dictUpd]
  | cons kv0 rest ih =>
    rw [dictUpd]
    split
    · simp
    · simp only [List.length_cons]
      omega

theorem deriveSwitches_length (vpc : VPCCfg) :
    ∀ (cfgs : List SwitchCfg) (acc l : List (String × LogicalSwitch)),
      deriveSwitches vpc cfgs acc = Except.ok l →
      l.length ≤ acc.length + cfgs.length := by
  intro cfgs
  induction cfgs with
  | nil =>
    intro acc l h
    rw [deriveSwitches] at h
    injection h with h2
    rw [← h2]
    simp
  | cons cfg rest ih =>
    intro acc l h
    rw [deriveSwitches] at h
    rcases hs : deriveSwitch vpc cfg with e | sw
    · rw [hs] at h
      have h2 : (Except.error e : Except String (List (String × LogicalSwitch))) =
          Except.ok l := h
      exact absurd h2 (by simp)
    · rw [hs] at h
      have := ih (dictUpd acc cfg.name sw) l h
      have hlen := dictUpd_length acc cfg.name sw
      simp only [List.length_cons]
      omega

theorem dictUpd_lookup_self (d : List (String × LogicalSwitch)) (k : String)
    (v : LogicalSwitch) : dictLookup k (dictUpd d k v) = some v := by
  induction d with
  | nil => simp [dictUpd, dictLookup]
  | cons kv0 rest ih =>
    rw [dictUpd]
    split
    · rw [dictLookup, if_pos rfl]
    · rw [dictLookup, if_neg (by assumption)]
      exact ih

/-- C10.  Derived switches are stored in a name-keyed dictionary, so a
later descriptor with the same name silently replaces an earlier one: the
derived topology never has more switches than the specification declares
descriptors, a dictionary write always wins the subsequent lookup of its
key, and in the concrete two-descriptor configuration `c10Cfg` (names both
`a`, ids 1 and 2, the first routed) the derived topology holds exactly one
switch — the one built from the LATER descriptor (id 2, not routed) — so
the reconciliation loops, which walk `topology.switches.values()`, never
see the shadowed first descriptor. -/
theorem c10_duplicate_names_shadow :
    (∀ (cfg : LabConfig) (t : Topology), deriveLab cfg = Except.ok t →
       t.switches.length ≤ cfg.switches.length) ∧
    (∀ (d : List (String × LogicalSwitch)) (k : String) (v : LogicalSwitch),
       dictLookup k (dictUpd d k v) = some v) ∧
    validateLabConfig c10Cfg = Except.ok () ∧
    deriveLab c10Cfg = Except.ok c10Topo ∧
    c10Cfg.switches.length = 2 ∧
    c10Topo.switches.length = 1 ∧
    (c10Topo.switches.map (fun kv => kv.2.id)) = [2] ∧
    (c10Topo.switches.map (fun kv => kv.2.routed)) = [false] ∧
    c10Topo.router = none := by
  refine ⟨?_, dictUpd_lookup_self, rfl, rfl, rfl, rfl, by decide, by decide, rfl⟩
  intro cfg t h
  rw [deriveLab] at h
  obtain ⟨sws, hs, h2⟩ := except_bind_ok _ _ _ h
  obtain ⟨router, hr, h3⟩ := except_bind_ok _ _ _ h2
  injection h3 with h5
  have := deriveSwitches_length cfg.vpc cfg.switches [] sws hs
  rw [← h5]
  simpa using this

/-- Witness for `c10_duplicate_names_shadow`: the general bound applied to
the concrete configuration. -/
theorem c10_duplicate_names_shadow_witness :
    c10Topo.switches.length ≤ c10Cfg.switches.length :=
  c10_duplicate_names_shadow.1 c10Cfg c10Topo rfl
